import Mathlib

/-!
# Confirmation dialogs of `certificat/static/js/confirmation.js`

A shallow embedding of the script and of the part of the browser it talks to:

* the message catalog `STANDARD_CONFIRMATIONS` and the lookup
  `STANDARD_CONFIRMATIONS[messageKey] || STANDARD_CONFIRMATIONS.DELETE_DOCUMENT`
  (an object literal, so a lookup also sees what `Object.prototype` provides);
* the document as the list of its elements in document order, every element with its
  tag, classes, attributes, click listeners and the index of its parent;
* `applyDeleteConfirmation` and the `DOMContentLoaded` routine as functions on documents;
* the dispatch of a click: the listeners of the target in registration order, then those
  of its ancestors (bubbling), with the three flags of the event.

Selectors are modelled after parsing (a string that is no selector makes
`querySelectorAll` throw and is not represented). Only click listeners registered for the
bubbling phase are tracked; attribute and tag names are stored the way the HTML parser
stores them (lower case).
-/

namespace Confirmation

/-! ## JavaScript values and the message catalog -/

/-- The JavaScript values a property lookup on the catalog can produce. -/
inductive JSValue where
  | undefined
  | string (s : String)
  | nativeFunction (name : String)
  | objectPrototype
  deriving DecidableEq, Repr

/-- The own properties of the object literal at lines 7 to 16 of the script. -/
def STANDARD_CONFIRMATIONS : List (String × String) :=
  [ ("DELETE_DOCUMENT", "Sigur doriți să ștergeți acest document?"),
    ("DELETE_USER", "Sigur doriți să ștergeți acest utilizator?"),
    ("DELETE_GESTIUNE", "Sigur doriți să ștergeți această gestiune?"),
    ("DELETE_TIPOLOGIE", "Sigur doriți să ștergeți această tipologie?"),
    ("DELETE_RANGE", "Sigur doriți să ștergeți această plajă de numere?"),
    ("GENERATE_DOCUMENT",
      "Ești sigur că vrei să generezi documentul final? Această acțiune nu poate fi anulată."),
    ("EMPTY_FIELDS", "Există câmpuri necompletate. Doriți să continuați?"),
    ("UNSAVED_CHANGES", "Aveți modificări nesalvate. Doriți să părăsiți pagina?") ]

/-- The function valued properties every object literal inherits from `Object.prototype`
(ECMAScript, section "Properties of the Object Prototype Object"): property name and the
name of the built-in function it holds. -/
def objectPrototypeFunctions : List (String × String) :=
  [ ("constructor", "Object"),
    ("hasOwnProperty", "hasOwnProperty"),
    ("isPrototypeOf", "isPrototypeOf"),
    ("propertyIsEnumerable", "propertyIsEnumerable"),
    ("toLocaleString", "toLocaleString"),
    ("toString", "toString"),
    ("valueOf", "valueOf"),
    ("__defineGetter__", "__defineGetter__"),
    ("__defineSetter__", "__defineSetter__"),
    ("__lookupGetter__", "__lookupGetter__"),
    ("__lookupSetter__", "__lookupSetter__") ]

/-- The expression `STANDARD_CONFIRMATIONS[key]`: an own property first, then the
prototype chain, whose only link is `Object.prototype`; `undefined` when both miss. -/
def getProperty (key : String) : JSValue :=
  match STANDARD_CONFIRMATIONS.lookup key with
  | some text => JSValue.string text
  | none =>
    match objectPrototypeFunctions.lookup key with
    | some fn => JSValue.nativeFunction fn
    | none => if key = "__proto__" then JSValue.objectPrototype else JSValue.undefined

/-- JavaScript truthiness (`ToBoolean`) of the values above. -/
def toBoolean : JSValue → Bool
  | JSValue.undefined => false
  | JSValue.string s => decide (s ≠ "")
  | JSValue.nativeFunction _ => true
  | JSValue.objectPrototype => true

/-- The text `window.confirm` displays for its argument (`ToString`). The text of a
built-in function is left to the engine by the language; it is written here the way V8 and
JavaScriptCore print it. -/
def toDisplayString : JSValue → String
  | JSValue.undefined => "undefined"
  | JSValue.string s => s
  | JSValue.nativeFunction name => "function " ++ name ++ "() \x7b [native code] \x7d"
  | JSValue.objectPrototype => "[object Object]"

/-- Line 25: `STANDARD_CONFIRMATIONS[messageKey] || STANDARD_CONFIRMATIONS.DELETE_DOCUMENT`. -/
def message (messageKey : String) : JSValue :=
  if toBoolean (getProperty messageKey) then getProperty messageKey
  else getProperty "DELETE_DOCUMENT"

/-! ## The document -/

/-- What a handler that is not part of this script does to the event it receives. -/
structure Effect where
  preventDefault : Bool
  stopPropagation : Bool
  stopImmediatePropagation : Bool
  deriving DecidableEq, Repr

/-- A click listener registered with `addEventListener`: either the closure created at
lines 30 to 36 (it captures `message`), or a listener of some other script, known by its
effect on the event. -/
inductive Listener where
  | confirmation (message : JSValue)
  | foreign (name : String) (effect : Effect)
  deriving DecidableEq, Repr

/-- An element of the document. `parent` is the index of the parent element in the
document; attributes other than `class` are in `attrs`. -/
structure Element where
  tag : String
  classes : List String
  attrs : List (String × String)
  listeners : List Listener
  parent : Option Nat
  deriving DecidableEq, Repr

/-- The elements of the document, in document order. -/
abbrev Document := List Element

/-- The value of the attribute `name`, when the element has it. -/
def getAttribute (name : String) (el : Element) : Option String :=
  el.attrs.lookup name

/-- The method `hasAttribute`. -/
def hasAttribute (name : String) (el : Element) : Bool :=
  (getAttribute name el).isSome

/-- The method `removeAttribute`: line 29 calls it with `onclick`. -/
def removeAttribute (name : String) (el : Element) : Element :=
  { el with attrs := el.attrs.filter (fun a => !decide (a.1 = name)) }

/-- The method `addEventListener` for the `click` type. The callback of line 30 is a
fresh function object at every call, so it is never dropped as a duplicate: it goes to
the end of the list. -/
def addEventListener (l : Listener) (el : Element) : Element :=
  { el with listeners := el.listeners ++ [l] }

/-- The parent of the element at index `i`. A parent precedes its children in document
order, so only a smaller index is followed. -/
def parentOf (doc : Document) (i : Nat) : Option Nat :=
  match doc[i]? with
  | some el =>
    match el.parent with
    | some p => if p < i then some p else none
    | none => none
  | none => none

/-- The chain of ancestors of `i`, nearest first, following at most `fuel` links. -/
def ancestorsAux (doc : Document) : Nat → Nat → List Nat
  | 0, _ => []
  | fuel + 1, i =>
    match parentOf doc i with
    | some p => p :: ancestorsAux doc fuel p
    | none => []

/-- The ancestors of `i`, nearest first. Every link goes to a smaller index, so `i`
links are enough. -/
def ancestors (doc : Document) (i : Nat) : List Nat :=
  ancestorsAux doc i i

/-! ## Selectors -/

/-- A parsed CSS selector. -/
inductive Selector where
  | universal
  | tag (name : String)
  | cls (name : String)
  | attr (name : String)
  | attrEq (name : String) (value : String)
  | and (a b : Selector)
  | or (a b : Selector)
  | not (a : Selector)
  | child (p c : Selector)
  | descendant (p c : Selector)
  deriving DecidableEq, Repr

/-- Whether the element at index `i` of the document matches the selector. -/
def Selector.matchesAt (doc : Document) : Selector → Nat → Bool
  | Selector.universal, i => (doc[i]?).isSome
  | Selector.tag t, i =>
    match doc[i]? with
    | some el => decide (el.tag = t)
    | none => false
  | Selector.cls c, i =>
    match doc[i]? with
    | some el => decide (c ∈ el.classes)
    | none => false
  | Selector.attr n, i =>
    match doc[i]? with
    | some el => hasAttribute n el
    | none => false
  | Selector.attrEq n v, i =>
    match doc[i]? with
    | some el => decide (getAttribute n el = some v)
    | none => false
  | Selector.and a b, i => a.matchesAt doc i && b.matchesAt doc i
  | Selector.or a b, i => a.matchesAt doc i || b.matchesAt doc i
  | Selector.not a, i => (doc[i]?).isSome && !(a.matchesAt doc i)
  | Selector.child p c, i =>
    c.matchesAt doc i &&
      (match parentOf doc i with
       | some j => p.matchesAt doc j
       | none => false)
  | Selector.descendant p c, i =>
    c.matchesAt doc i && (ancestors doc i).any (fun j => p.matchesAt doc j)

/-- The method `document.querySelectorAll`: the indices of the matching elements, each
once, in document order. -/
def querySelectorAll (selector : Selector) (doc : Document) : List Nat :=
  (List.range doc.length).filter (fun i => selector.matchesAt doc i)

/-- The method `document.querySelector`: the first match, or nothing (`null`). -/
def querySelector (selector : Selector) (doc : Document) : Option Nat :=
  (querySelectorAll selector doc).head?

/-! ## The script -/

/-- Replace the element at index `i` by its image under `f`. -/
def updateAt (doc : Document) (i : Nat) (f : Element → Element) : Document :=
  match doc[i]? with
  | some el => doc.set i (f el)
  | none => doc

/-- The body of the `forEach` callback, lines 27 to 37, for one button. -/
def bindButton (msg : JSValue) (button : Element) : Element :=
  addEventListener (Listener.confirmation msg) (removeAttribute "onclick" button)

/-- The function `applyDeleteConfirmation`, lines 23 to 38: the document it leaves and the
value it returns (it has no `return` statement). -/
def applyDeleteConfirmation (selector : Selector) (messageKey : String) (doc : Document) :
    Document × JSValue :=
  let buttons := querySelectorAll selector doc
  let msg := message messageKey
  (buttons.foldl (fun d i => updateAt d i (bindButton msg)) doc, JSValue.undefined)

/-- The selector `a[data-confirm], button[data-confirm]` of line 64. -/
def dataConfirmSelector : Selector :=
  Selector.or (Selector.and (Selector.tag "a") (Selector.attr "data-confirm"))
    (Selector.and (Selector.tag "button") (Selector.attr "data-confirm"))

/-- The `DOMContentLoaded` listener, lines 41 to 65. -/
def onDOMContentLoaded (doc : Document) : Document :=
  let d1 :=
    if (querySelector (Selector.cls "delete-document-btn") doc).isSome then
      (applyDeleteConfirmation (Selector.cls "delete-document-btn") "DELETE_DOCUMENT" doc).1
    else doc
  let d2 :=
    if (querySelector (Selector.cls "delete-user-btn") d1).isSome then
      (applyDeleteConfirmation (Selector.cls "delete-user-btn") "DELETE_USER" d1).1
    else d1
  let d3 :=
    if (querySelector (Selector.cls "delete-gestiune-btn") d2).isSome then
      (applyDeleteConfirmation (Selector.cls "delete-gestiune-btn") "DELETE_GESTIUNE" d2).1
    else d2
  let d4 :=
    if (querySelector (Selector.cls "delete-tipologie-btn") d3).isSome then
      (applyDeleteConfirmation (Selector.cls "delete-tipologie-btn") "DELETE_TIPOLOGIE" d3).1
    else d3
  let d5 :=
    if (querySelector (Selector.cls "delete-range-btn") d4).isSome then
      (applyDeleteConfirmation (Selector.cls "delete-range-btn") "DELETE_RANGE" d4).1
    else d4
  (applyDeleteConfirmation dataConfirmSelector "DELETE_DOCUMENT" d5).1

/-! ## A click -/

/-- The flags of an event that handlers can set. -/
structure Event where
  defaultPrevented : Bool
  propagationStopped : Bool
  immediatePropagationStopped : Bool
  deriving DecidableEq, Repr

/-- The state of a click while it is dispatched: the event, the texts `window.confirm`
has displayed so far, and the listeners run so far as pairs of the index of the element
and the position of the listener among the handlers of that element. -/
structure Click where
  event : Event
  prompts : List String
  ran : List (Nat × Nat)
  deriving DecidableEq, Repr

/-- A click before any handler has run. -/
def Click.fresh : Click :=
  { event := { defaultPrevented := false, propagationStopped := false,
               immediatePropagationStopped := false },
    prompts := [], ran := [] }

/-- The method `preventDefault` of the event (a click is cancelable). -/
def preventDefault (c : Click) : Click :=
  { c with event := { c.event with defaultPrevented := true } }

/-- The function `window.confirm`: it displays the text of its argument and returns the
answer of the user; `answers k` is the answer to the prompt number `k` of this click. -/
def confirm (answers : Nat → Bool) (msg : JSValue) (c : Click) : Bool × Click :=
  (answers c.prompts.length, { c with prompts := c.prompts ++ [toDisplayString msg] })

/-- The closure of lines 30 to 36: its return value and the click it leaves. -/
def clickListener (msg : JSValue) (answers : Nat → Bool) (c : Click) : Bool × Click :=
  let r := confirm answers msg c
  if !r.1 then (false, preventDefault r.2) else (true, r.2)

/-- What a handler of another script does to the event. `stopImmediatePropagation` sets
both propagation flags. -/
def applyEffect (eff : Effect) (c : Click) : Click :=
  { c with event :=
      { defaultPrevented := c.event.defaultPrevented || eff.preventDefault,
        propagationStopped :=
          c.event.propagationStopped || eff.stopPropagation || eff.stopImmediatePropagation,
        immediatePropagationStopped :=
          c.event.immediatePropagationStopped || eff.stopImmediatePropagation } }

/-- Run one listener. The value a callback of `addEventListener` returns is ignored. -/
def invokeListener (answers : Nat → Bool) : Listener → Click → Click
  | Listener.confirmation msg, c => (clickListener msg answers c).2
  | Listener.foreign _ eff, c => applyEffect eff c

/-- Run the handlers of the element at index `idx`, in order, from position `pos` on; a
handler that stopped immediate propagation ends the run. -/
def invokeListeners (answers : Nat → Bool) (idx : Nat) : List Listener → Nat → Click → Click
  | [], _, c => c
  | l :: ls, pos, c =>
    if c.event.immediatePropagationStopped then c
    else
      invokeListeners answers idx ls (pos + 1)
        (invokeListener answers l { c with ran := c.ran ++ [(idx, pos)] })

/-- The click handlers of an element in the order they run: the handler of an inline
`onclick` attribute, set when the element was created, then the registered listeners.
What the code of an attribute does is given by `interp`. -/
def handlersOf (interp : String → Effect) (el : Element) : List Listener :=
  (match getAttribute "onclick" el with
   | some code => [Listener.foreign "onclick" (interp code)]
   | none => []) ++ el.listeners

/-- The handling of a click at one element of the propagation path. -/
def handleAt (interp : String → Effect) (answers : Nat → Bool) (idx : Nat) (el : Element)
    (c : Click) : Click :=
  invokeListeners answers idx (handlersOf interp el) 0 c

/-- The propagation path of a click on the element at index `i`: the target, then its
ancestors, nearest first. -/
def eventPath (doc : Document) (i : Nat) : List Nat :=
  i :: ancestors doc i

/-- Walk the propagation path; a handler that stopped propagation ends the walk. -/
def dispatch (interp : String → Effect) (answers : Nat → Bool) (doc : Document) :
    List Nat → Click → Click
  | [], c => c
  | j :: rest, c =>
    if c.event.propagationStopped then c
    else
      match doc[j]? with
      | some el => dispatch interp answers doc rest (handleAt interp answers j el c)
      | none => dispatch interp answers doc rest c

/-- A click of the user on the element at index `i`. The default action of the click
proceeds when the resulting event is not `defaultPrevented`. -/
def click (interp : String → Effect) (answers : Nat → Bool) (doc : Document) (i : Nat) :
    Click :=
  dispatch interp answers doc (eventPath doc i) Click.fresh

/-! ## Vocabulary of the statements -/

/-- Whether the selector looks at the attribute `name`. -/
def Selector.testsAttribute (name : String) : Selector → Bool
  | Selector.universal => false
  | Selector.tag _ => false
  | Selector.cls _ => false
  | Selector.attr n => decide (n = name)
  | Selector.attrEq n _ => decide (n = name)
  | Selector.and a b => a.testsAttribute name || b.testsAttribute name
  | Selector.or a b => a.testsAttribute name || b.testsAttribute name
  | Selector.not a => a.testsAttribute name
  | Selector.child p c => p.testsAttribute name || c.testsAttribute name
  | Selector.descendant p c => p.testsAttribute name || c.testsAttribute name

/-- Two elements that differ at most in the `onclick` attribute and in their listeners. -/
def SameMarkupEl (a b : Element) : Prop :=
  b.tag = a.tag ∧ b.classes = a.classes ∧ b.parent = a.parent ∧
    ∀ n, n ≠ "onclick" → getAttribute n b = getAttribute n a

/-- Two documents whose elements differ at most in the `onclick` attribute and in their
listeners. -/
def SameMarkup (d1 d2 : Document) : Prop :=
  ∀ j : Nat, (d1[j]? = none ∧ d2[j]? = none) ∨
    ∃ a b, d1[j]? = some a ∧ d2[j]? = some b ∧ SameMarkupEl a b

/-- Whether the listener is one bound by `applyDeleteConfirmation`. -/
def Listener.isConfirmation : Listener → Bool
  | Listener.confirmation _ => true
  | Listener.foreign _ _ => false

/-- The texts the listeners bound by `applyDeleteConfirmation` display, in order. -/
def promptsOf : List Listener → List String
  | [] => []
  | Listener.confirmation msg :: ls => toDisplayString msg :: promptsOf ls
  | Listener.foreign _ _ :: ls => promptsOf ls

/-- The element has no inline `onclick` handler and no listener of another script. -/
def onlyConfirmations (el : Element) : Bool :=
  !(hasAttribute "onclick" el) && el.listeners.all Listener.isConfirmation

/-- The texts displayed by the bound listeners along a path, in the order of the path. -/
def pathPrompts (doc : Document) : List Nat → List String
  | [] => []
  | j :: rest =>
    (match doc[j]? with
     | some el => promptsOf el.listeners
     | none => []) ++ pathPrompts doc rest

/-- Every registered listener along a path, as element index and position. -/
def pathListeners (doc : Document) : List Nat → List (Nat × Nat)
  | [] => []
  | j :: rest =>
    (match doc[j]? with
     | some el => (List.range el.listeners.length).map (fun k => (j, k))
     | none => []) ++ pathListeners doc rest

/-- Every element on the path carries bound listeners only. -/
def onlyConfirmationsOn (doc : Document) (path : List Nat) : Bool :=
  path.all (fun j =>
    match doc[j]? with
    | some el => onlyConfirmations el
    | none => true)

/-- The element carries no click handler at all. -/
def noHandlers (el : Element) : Bool :=
  !(hasAttribute "onclick" el) && el.listeners.isEmpty

/-- No element on the path carries a click handler. -/
def noHandlersOn (doc : Document) (path : List Nat) : Bool :=
  path.all (fun j =>
    match doc[j]? with
    | some el => noHandlers el
    | none => true)

/-- Two clicks at the same point of their propagation: the same listeners have run and the
propagation flags agree. -/
def SameFlow (c1 c2 : Click) : Prop :=
  c1.ran = c2.ran ∧ c1.event.propagationStopped = c2.event.propagationStopped ∧
    c1.event.immediatePropagationStopped = c2.event.immediatePropagationStopped

/-! ## The routine as a list of bindings -/

/-- The six bindings of the `DOMContentLoaded` routine, lines 43 to 64, in their order. -/
def routineBindings : List (Selector × String) :=
  [ (Selector.cls "delete-document-btn", "DELETE_DOCUMENT"),
    (Selector.cls "delete-user-btn", "DELETE_USER"),
    (Selector.cls "delete-gestiune-btn", "DELETE_GESTIUNE"),
    (Selector.cls "delete-tipologie-btn", "DELETE_TIPOLOGIE"),
    (Selector.cls "delete-range-btn", "DELETE_RANGE"),
    (dataConfirmSelector, "DELETE_DOCUMENT") ]

/-- The messages of those among the given bindings whose selector matches the element at
index `i`, in binding order. -/
def messagesFor (bindings : List (Selector × String)) (doc : Document) (i : Nat) :
    List JSValue :=
  (bindings.filter (fun b => b.1.matchesAt doc i)).map (fun b => message b.2)

/-- The messages the routine binds to the element at index `i`; their number is the
number of selectors of the routine that the element matches. -/
def boundMessages (doc : Document) (i : Nat) : List JSValue :=
  messagesFor routineBindings doc i

/-- One call of `applyDeleteConfirmation` after the other. -/
def applyAll (bindings : List (Selector × String)) (doc : Document) : Document :=
  bindings.foldl (fun d b => (applyDeleteConfirmation b.1 b.2 d).1) doc

/-- The body of the `forEach` callback run on one element once per message. -/
def bindMany (msgs : List JSValue) (el : Element) : Element :=
  msgs.foldl (fun e m => bindButton m e) el

/-! ## Sample data -/

/-- Markup whose inline handlers leave the event alone. -/
def inertMarkup : String → Effect :=
  fun _ => { preventDefault := false, stopPropagation := false,
             stopImmediatePropagation := false }

/-- A user who confirms every prompt. -/
def alwaysConfirm : Nat → Bool := fun _ => true

/-- A user who declines every prompt. -/
def alwaysDecline : Nat → Bool := fun _ => false

/-- A user who confirms the first prompt and declines the later ones. -/
def confirmFirstOnly : Nat → Bool := fun k => decide (k = 0)

/-- The button of the first scenario of the specification:
`<button class="delete-user-btn" onclick="return confirm('old message')">`. -/
def userButton : Element :=
  { tag := "button", classes := ["delete-user-btn"],
    attrs := [("onclick", "return confirm('old message')")], listeners := [], parent := none }

/-- The link of the second scenario: `<a data-confirm href="/docs/5/delete">`. -/
def confirmLink : Element :=
  { tag := "a", classes := [], attrs := [("data-confirm", ""), ("href", "/docs/5/delete")],
    listeners := [], parent := none }

/-- A button that carries both a class of the routine and the generic marker:
`<button class="delete-user-btn" data-confirm>`. -/
def markedUserButton : Element :=
  { tag := "button", classes := ["delete-user-btn"], attrs := [("data-confirm", "")],
    listeners := [], parent := none }

/-- A page with the link of the second scenario and, inside it, a user deletion button:
`<a data-confirm href="/docs/5/delete"><button class="delete-user-btn"></button></a>`. -/
def nestedPage : Document :=
  [ confirmLink,
    { tag := "button", classes := ["delete-user-btn"], attrs := [], listeners := [],
      parent := some 0 } ]

/-- A plain paragraph. -/
def paragraph : Element :=
  { tag := "p", classes := [], attrs := [], listeners := [], parent := none }

/-- A page with the link of the second scenario and, inside it, a button that carries
both a class of the routine and the generic marker:
`<a data-confirm href="/docs/5/delete"><button class="delete-user-btn" data-confirm></button></a>`. -/
def nestedMarkedPage : Document :=
  [ confirmLink,
    { tag := "button", classes := ["delete-user-btn"], attrs := [("data-confirm", "")],
      listeners := [], parent := some 0 } ]

/-- Markup in which the handler code `return false` cancels the event, as an inline
handler that returns `false` does, and any other handler code leaves the event alone. -/
def returnFalseMarkup : String → Effect :=
  fun code => { preventDefault := decide (code = "return false"), stopPropagation := false,
                stopImmediatePropagation := false }

/-- The button of the first scenario as the child of the first element of a page. -/
def wrappedUserButton : Element :=
  { tag := "button", classes := ["delete-user-btn"],
    attrs := [("onclick", "return confirm('old message')")], listeners := [],
    parent := some 0 }

/-- The button of the first scenario inside a plain block:
`<div><button class="delete-user-btn" onclick="return confirm('old message')"></button></div>`. -/
def wrappedButtonPage : Document :=
  [ { tag := "div", classes := [], attrs := [], listeners := [], parent := none },
    wrappedUserButton ]

/-- A user deletion button inside a block with an inline handler that cancels clicks:
`<div onclick="return false"><button class="delete-user-btn"></button></div>`. -/
def cancellingWrapperPage : Document :=
  [ { tag := "div", classes := [], attrs := [("onclick", "return false")], listeners := [],
      parent := none },
    { tag := "button", classes := ["delete-user-btn"], attrs := [], listeners := [],
      parent := some 0 } ]

/-- A button bound with `DELETE_USER` to which another script added a listener of its own
afterwards, inside a block that carries a listener of that script too. -/
def trackedButtonPage : Document :=
  [ { tag := "div", classes := [], attrs := [],
      listeners := [Listener.foreign "track"
        { preventDefault := false, stopPropagation := false,
          stopImmediatePropagation := false }],
      parent := none },
    { tag := "button", classes := ["delete-user-btn"], attrs := [],
      listeners := [Listener.confirmation (message "DELETE_USER"),
        Listener.foreign "track"
          { preventDefault := false, stopPropagation := false,
            stopImmediatePropagation := false }],
      parent := some 0 } ]

/-- A document deletion button: `<button class="btn delete-document-btn">`. -/
def documentButton : Element :=
  { tag := "button", classes := ["btn", "delete-document-btn"], attrs := [],
    listeners := [], parent := none }

/-- A user deletion button without attributes: `<button class="delete-user-btn">`. -/
def plainUserButton : Element :=
  { tag := "button", classes := ["delete-user-btn"], attrs := [], listeners := [],
    parent := none }

/-- A gestiune deletion link: `<a class="delete-gestiune-btn" href="/gestiuni/2/delete">`. -/
def gestiuneLink : Element :=
  { tag := "a", classes := ["delete-gestiune-btn"], attrs := [("href", "/gestiuni/2/delete")],
    listeners := [], parent := none }

/-- A tipologie deletion button: `<button class="delete-tipologie-btn">`. -/
def tipologieButton : Element :=
  { tag := "button", classes := ["delete-tipologie-btn"], attrs := [], listeners := [],
    parent := none }

/-- A range deletion button: `<button class="delete-range-btn">`. -/
def rangeButton : Element :=
  { tag := "button", classes := ["delete-range-btn"], attrs := [], listeners := [],
    parent := none }

/-- A page with one element for each of the five classes of the routine and the link of
the second scenario. -/
def deletePage : Document :=
  [documentButton, plainUserButton, gestiuneLink, tipologieButton, rangeButton, confirmLink]

/-! ## Lemmas -/

theorem updateAt_length (doc : Document) (i : Nat) (f : Element → Element) :
    (updateAt doc i f).length = doc.length := by
  unfold updateAt
  split <;> simp

theorem updateAt_getElem? (doc : Document) (i j : Nat) (f : Element → Element) :
    (updateAt doc i f)[j]? = if j = i then (doc[j]?).map f else doc[j]? := by
  unfold updateAt
  split
  · next el h =>
    by_cases hji : j = i
    · subst hji
      have hlt : j < doc.length := by
        rcases List.getElem?_eq_some.1 h with ⟨hlt, _⟩
        exact hlt
      simp [List.getElem?_set, hlt, h]
    · have : ¬ i = j := fun h => hji h.symm
      simp [List.getElem?_set, hji, this]
  · next h =>
    by_cases hji : j = i
    · subst hji; simp [h]
    · simp [hji]

theorem forEach_getElem? (f : Element → Element) (l : List Nat) (hl : l.Nodup) (doc : Document)
    (j : Nat) :
    (l.foldl (fun d i => updateAt d i f) doc)[j]? =
      if j ∈ l then (doc[j]?).map f else doc[j]? := by
  induction l generalizing doc with
  | nil => simp
  | cons a l ih =>
    rw [List.nodup_cons] at hl
    rw [List.foldl_cons, ih hl.2, updateAt_getElem?]
    by_cases hja : j = a
    · subst hja
      simp [hl.1]
    · by_cases hjl : j ∈ l
      · simp [hja, hjl]
      · simp [hja, hjl]

theorem forEach_length (f : Element → Element) (l : List Nat) (doc : Document) :
    (l.foldl (fun d i => updateAt d i f) doc).length = doc.length := by
  induction l generalizing doc with
  | nil => rfl
  | cons a l ih => rw [List.foldl_cons, ih, updateAt_length]

theorem querySelectorAll_nodup (selector : Selector) (doc : Document) :
    (querySelectorAll selector doc).Nodup :=
  (List.nodup_range doc.length).filter _

theorem mem_querySelectorAll (selector : Selector) (doc : Document) (i : Nat) :
    i ∈ querySelectorAll selector doc ↔ i < doc.length ∧ selector.matchesAt doc i = true := by
  simp [querySelectorAll]

theorem apply_getElem? (selector : Selector) (messageKey : String) (doc : Document) (j : Nat) :
    ((applyDeleteConfirmation selector messageKey doc).1)[j]? =
      if selector.matchesAt doc j = true then (doc[j]?).map (bindButton (message messageKey))
      else doc[j]? := by
  unfold applyDeleteConfirmation
  simp only
  rw [forEach_getElem? _ _ (querySelectorAll_nodup selector doc)]
  by_cases hm : selector.matchesAt doc j = true
  · by_cases hlt : j < doc.length
    · have : j ∈ querySelectorAll selector doc := (mem_querySelectorAll _ _ _).2 ⟨hlt, hm⟩
      simp [this, hm]
    · have hnone : doc[j]? = none := List.getElem?_eq_none (Nat.le_of_not_lt hlt)
      simp [hnone]
  · have : j ∉ querySelectorAll selector doc := fun h => hm ((mem_querySelectorAll _ _ _).1 h).2
    simp [this, hm]

theorem apply_length (selector : Selector) (messageKey : String) (doc : Document) :
    (applyDeleteConfirmation selector messageKey doc).1.length = doc.length := by
  unfold applyDeleteConfirmation
  exact forEach_length _ _ _

theorem lookup_filter_ne (name n : String) (hn : n ≠ name) (l : List (String × String)) :
    (l.filter (fun a => !decide (a.1 = name))).lookup n = l.lookup n := by
  induction l with
  | nil => rfl
  | cons a l ih =>
    obtain ⟨k, v⟩ := a
    by_cases hk : k = name
    · subst hk
      have : (n == k) = false := by simpa using hn
      simpa [List.filter_cons, List.lookup_cons, this] using ih
    · by_cases hnk : n = k
      · subst hnk
        simp [List.filter_cons, List.lookup_cons, hk]
      · have : (n == k) = false := by simpa using hnk
        simpa [List.filter_cons, List.lookup_cons, hk, this] using ih

theorem lookup_filter_self (name : String) (l : List (String × String)) :
    (l.filter (fun a => !decide (a.1 = name))).lookup name = none := by
  induction l with
  | nil => rfl
  | cons a l ih =>
    obtain ⟨k, v⟩ := a
    by_cases hk : k = name
    · subst hk
      simpa [List.filter_cons] using ih
    · have : (name == k) = false := by simpa using (fun h : name = k => hk h.symm)
      simpa [List.filter_cons, List.lookup_cons, hk, this] using ih

theorem hasAttribute_bindButton_onclick (msg : JSValue) (el : Element) :
    hasAttribute "onclick" (bindButton msg el) = false := by
  simp only [hasAttribute, getAttribute, bindButton, addEventListener, removeAttribute,
    lookup_filter_self, Option.isSome_none]

theorem getAttribute_bindButton (msg : JSValue) (el : Element) (n : String)
    (hn : n ≠ "onclick") : getAttribute n (bindButton msg el) = getAttribute n el := by
  simp only [getAttribute, bindButton, addEventListener, removeAttribute,
    lookup_filter_ne _ _ hn]

theorem message_of_catalog (key text : String) (h : (key, text) ∈ STANDARD_CONFIRMATIONS) :
    message key = JSValue.string text := by
  simp only [STANDARD_CONFIRMATIONS, List.mem_cons, Prod.mk.injEq, List.mem_singleton,
    List.not_mem_nil, or_false] at h
  rcases h with h | h | h | h | h | h | h | h <;> obtain ⟨rfl, rfl⟩ := h <;> rfl

theorem SameMarkup.refl (d : Document) : SameMarkup d d := by
  intro j
  cases h : d[j]? with
  | none => exact Or.inl ⟨rfl, rfl⟩
  | some a => exact Or.inr ⟨a, a, rfl, rfl, rfl, rfl, rfl, fun _ _ => rfl⟩

theorem SameMarkup.trans {d1 d2 d3 : Document} (h12 : SameMarkup d1 d2)
    (h23 : SameMarkup d2 d3) : SameMarkup d1 d3 := by
  intro j
  rcases h12 j with ⟨h1, h2⟩ | ⟨a, b, h1, h2, hab⟩
  · rcases h23 j with ⟨_, h3⟩ | ⟨b, c, h2b, _, _⟩
    · exact Or.inl ⟨h1, h3⟩
    · rw [h2] at h2b; cases h2b
  · rcases h23 j with ⟨h2b, _⟩ | ⟨b2, c, h2b, h3, hbc⟩
    · rw [h2] at h2b; cases h2b
    · rw [h2] at h2b
      cases h2b
      refine Or.inr ⟨a, c, h1, h3, ?_⟩
      exact ⟨hbc.1.trans hab.1, hbc.2.1.trans hab.2.1, hbc.2.2.1.trans hab.2.2.1,
        fun n hn => (hbc.2.2.2 n hn).trans (hab.2.2.2 n hn)⟩

theorem sameMarkupEl_bindButton (msg : JSValue) (el : Element) :
    SameMarkupEl el (bindButton msg el) :=
  ⟨rfl, rfl, rfl, fun n hn => getAttribute_bindButton msg el n hn⟩

theorem sameMarkup_apply (selector : Selector) (messageKey : String) (doc : Document) :
    SameMarkup doc (applyDeleteConfirmation selector messageKey doc).1 := by
  intro j
  rw [apply_getElem?]
  cases h : doc[j]? with
  | none => left; simp
  | some a =>
    right
    by_cases hm : selector.matchesAt doc j = true
    · exact ⟨a, bindButton (message messageKey) a, rfl, by simp [hm],
        sameMarkupEl_bindButton _ _⟩
    · exact ⟨a, a, rfl, by simp [hm], rfl, rfl, rfl, fun _ _ => rfl⟩

theorem parentOf_sameMarkup {d1 d2 : Document} (h : SameMarkup d1 d2) (i : Nat) :
    parentOf d2 i = parentOf d1 i := by
  unfold parentOf
  rcases h i with ⟨h1, h2⟩ | ⟨a, b, h1, h2, hab⟩
  · rw [h1, h2]
  · rw [h1, h2]
    simp only [hab.2.2.1]

theorem ancestorsAux_sameMarkup {d1 d2 : Document} (h : SameMarkup d1 d2) (fuel i : Nat) :
    ancestorsAux d2 fuel i = ancestorsAux d1 fuel i := by
  induction fuel generalizing i with
  | zero => rfl
  | succ n ih =>
    simp only [ancestorsAux, parentOf_sameMarkup h]
    cases parentOf d1 i with
    | none => rfl
    | some p => simp only [ih]

theorem ancestors_sameMarkup {d1 d2 : Document} (h : SameMarkup d1 d2) (i : Nat) :
    ancestors d2 i = ancestors d1 i :=
  ancestorsAux_sameMarkup h i i

theorem matchesAt_sameMarkup {d1 d2 : Document} (h : SameMarkup d1 d2) (s : Selector)
    (hs : s.testsAttribute "onclick" = false) (i : Nat) :
    s.matchesAt d2 i = s.matchesAt d1 i := by
  induction s generalizing i with
  | universal =>
    simp only [Selector.matchesAt]
    rcases h i with ⟨h1, h2⟩ | ⟨a, b, h1, h2, _⟩ <;> rw [h1, h2]
    rfl
  | tag t =>
    simp only [Selector.matchesAt]
    rcases h i with ⟨h1, h2⟩ | ⟨a, b, h1, h2, hab⟩ <;> rw [h1, h2]
    simp only [hab.1]
  | cls c =>
    simp only [Selector.matchesAt]
    rcases h i with ⟨h1, h2⟩ | ⟨a, b, h1, h2, hab⟩ <;> rw [h1, h2]
    simp only [hab.2.1]
  | attr n =>
    simp only [Selector.matchesAt]
    have hn : n ≠ "onclick" := by simpa [Selector.testsAttribute] using hs
    rcases h i with ⟨h1, h2⟩ | ⟨a, b, h1, h2, hab⟩ <;> rw [h1, h2]
    simp only [hasAttribute, hab.2.2.2 n hn]
  | attrEq n v =>
    simp only [Selector.matchesAt]
    have hn : n ≠ "onclick" := by simpa [Selector.testsAttribute] using hs
    rcases h i with ⟨h1, h2⟩ | ⟨a, b, h1, h2, hab⟩ <;> rw [h1, h2]
    simp only [hab.2.2.2 n hn]
  | and a b iha ihb =>
    simp only [Selector.testsAttribute, Bool.or_eq_false_iff] at hs
    simp only [Selector.matchesAt, iha hs.1, ihb hs.2]
  | or a b iha ihb =>
    simp only [Selector.testsAttribute, Bool.or_eq_false_iff] at hs
    simp only [Selector.matchesAt, iha hs.1, ihb hs.2]
  | not a iha =>
    simp only [Selector.testsAttribute] at hs
    simp only [Selector.matchesAt, iha hs]
    rcases h i with ⟨h1, h2⟩ | ⟨a, b, h1, h2, _⟩ <;> rw [h1, h2]
    rfl
  | child p c ihp ihc =>
    simp only [Selector.testsAttribute, Bool.or_eq_false_iff] at hs
    simp only [Selector.matchesAt, ihc hs.2, parentOf_sameMarkup h]
    cases parentOf d1 i with
    | none => rfl
    | some j => simp only [ihp hs.1]
  | descendant p c ihp ihc =>
    simp only [Selector.testsAttribute, Bool.or_eq_false_iff] at hs
    simp only [Selector.matchesAt, ihc hs.2, ancestors_sameMarkup h, ihp hs.1]

theorem querySelectorAll_sameMarkup {d1 d2 : Document} (h : SameMarkup d1 d2) (s : Selector)
    (hs : s.testsAttribute "onclick" = false) :
    querySelectorAll s d2 = querySelectorAll s d1 := by
  have hlen : d2.length = d1.length := by
    apply Nat.le_antisymm
    · by_contra hlt
      have hlt : d1.length < d2.length := Nat.lt_of_not_le hlt
      rcases h d1.length with ⟨_, h2⟩ | ⟨a, _, h1, _, _⟩
      · rw [List.getElem?_eq_none_iff] at h2; omega
      · rw [List.getElem?_eq_none (Nat.le_refl _)] at h1; cases h1
    · by_contra hlt
      have hlt : d2.length < d1.length := Nat.lt_of_not_le hlt
      rcases h d2.length with ⟨h1, _⟩ | ⟨_, b, _, h2, _⟩
      · rw [List.getElem?_eq_none_iff] at h1; omega
      · rw [List.getElem?_eq_none (Nat.le_refl _)] at h2; cases h2
  unfold querySelectorAll
  rw [hlen]
  congr 1
  funext i
  exact matchesAt_sameMarkup h s hs i

theorem invokeListener_confirmation (answers : Nat → Bool) (msg : JSValue) (c : Click) :
    (invokeListener answers (Listener.confirmation msg) c).prompts =
        c.prompts ++ [toDisplayString msg] ∧
    (invokeListener answers (Listener.confirmation msg) c).ran = c.ran ∧
    (invokeListener answers (Listener.confirmation msg) c).event.propagationStopped =
        c.event.propagationStopped ∧
    (invokeListener answers (Listener.confirmation msg) c).event.immediatePropagationStopped =
        c.event.immediatePropagationStopped ∧
    (invokeListener answers (Listener.confirmation msg) c).event.defaultPrevented =
        (c.event.defaultPrevented || !answers c.prompts.length) := by
  obtain ⟨⟨dp, ps, ips⟩, prompts, ran⟩ := c
  simp only [invokeListener, clickListener, confirm, preventDefault]
  cases answers prompts.length <;> simp

theorem exists_lt_succ_shift (answers : Nat → Bool) (base n : Nat) :
    (∃ k, k < n + 1 ∧ answers (base + k) = false) ↔
      (answers base = false ∨ ∃ k, k < n ∧ answers (base + 1 + k) = false) := by
  constructor
  · rintro ⟨k, hk, ha⟩
    cases k with
    | zero => exact Or.inl ha
    | succ k =>
      refine Or.inr ⟨k, by omega, ?_⟩
      have : base + 1 + k = base + (k + 1) := by omega
      rw [this]; exact ha
  · rintro (ha | ⟨k, hk, ha⟩)
    · exact ⟨0, by omega, ha⟩
    · refine ⟨k + 1, by omega, ?_⟩
      have : base + 1 + k = base + (k + 1) := by omega
      rw [← this]; exact ha

theorem exists_lt_add_shift (answers : Nat → Bool) (base a b : Nat) :
    (∃ k, k < a + b ∧ answers (base + k) = false) ↔
      ((∃ k, k < a ∧ answers (base + k) = false) ∨
        ∃ k, k < b ∧ answers (base + a + k) = false) := by
  constructor
  · rintro ⟨k, hk, ha⟩
    by_cases hka : k < a
    · exact Or.inl ⟨k, hka, ha⟩
    · refine Or.inr ⟨k - a, by omega, ?_⟩
      have : base + a + (k - a) = base + k := by omega
      rw [this]; exact ha
  · rintro (⟨k, hk, ha⟩ | ⟨k, hk, ha⟩)
    · exact ⟨k, by omega, ha⟩
    · refine ⟨a + k, by omega, ?_⟩
      have : base + a + k = base + (a + k) := by omega
      rw [← this]; exact ha

theorem invokeListeners_confirmations (answers : Nat → Bool) (idx : Nat) (ls : List Listener)
    (hls : ls.all Listener.isConfirmation = true) (pos : Nat) (c : Click)
    (hc : c.event.immediatePropagationStopped = false) :
    (invokeListeners answers idx ls pos c).prompts = c.prompts ++ promptsOf ls ∧
    (invokeListeners answers idx ls pos c).ran =
      c.ran ++ (List.range' pos ls.length).map (fun k => (idx, k)) ∧
    (invokeListeners answers idx ls pos c).event.propagationStopped =
      c.event.propagationStopped ∧
    (invokeListeners answers idx ls pos c).event.immediatePropagationStopped = false ∧
    ((invokeListeners answers idx ls pos c).event.defaultPrevented = true ↔
      (c.event.defaultPrevented = true ∨
        ∃ k, k < (promptsOf ls).length ∧ answers (c.prompts.length + k) = false)) := by
  induction ls generalizing pos c with
  | nil =>
    simp [invokeListeners, promptsOf, hc]
  | cons l ls ih =>
    cases l with
    | foreign n e => simp [Listener.isConfirmation] at hls
    | confirmation msg =>
      have hls2 : ls.all Listener.isConfirmation = true := by
        simp only [List.all_cons, Bool.and_eq_true] at hls
        exact hls.2
      rw [invokeListeners, if_neg (by rw [hc]; exact Bool.false_ne_true)]
      obtain ⟨g1, g2, g3, g4, g5⟩ :=
        invokeListener_confirmation answers msg { c with ran := c.ran ++ [(idx, pos)] }
      obtain ⟨h1, h2, h3, h4, h5⟩ := ih hls2 (pos + 1)
        (invokeListener answers (Listener.confirmation msg)
          { c with ran := c.ran ++ [(idx, pos)] }) (g4.trans hc)
      refine ⟨?_, ?_, ?_, ?_, ?_⟩
      · rw [h1, g1]; simp [promptsOf]
      · rw [h2, g2]; simp [List.range'_succ]
      · rw [h3, g3]
      · exact h4
      · rw [h5, g5, g1]
        simp only [promptsOf, List.length_cons, List.length_append, List.length_nil,
          exists_lt_succ_shift, Bool.or_eq_true, Bool.not_eq_true']
        simp only [Nat.zero_add, or_assoc]

theorem handlersOf_of_no_onclick (interp : String → Effect) (el : Element)
    (h : hasAttribute "onclick" el = false) : handlersOf interp el = el.listeners := by
  unfold handlersOf
  unfold hasAttribute at h
  cases hg : getAttribute "onclick" el with
  | none => rfl
  | some code => rw [hg] at h; cases h

theorem handlersOf_onlyConfirmations (interp : String → Effect) (el : Element)
    (h : onlyConfirmations el = true) :
    handlersOf interp el = el.listeners ∧ el.listeners.all Listener.isConfirmation = true := by
  simp only [onlyConfirmations, Bool.and_eq_true, Bool.not_eq_true'] at h
  exact ⟨handlersOf_of_no_onclick interp el h.1, h.2⟩

theorem handlersOf_noHandlers (interp : String → Effect) (el : Element)
    (h : noHandlers el = true) : handlersOf interp el = [] := by
  simp only [noHandlers, Bool.and_eq_true, Bool.not_eq_true', List.isEmpty_iff] at h
  rw [handlersOf_of_no_onclick interp el h.1, h.2]

theorem dispatch_noHandlers (interp : String → Effect) (answers : Nat → Bool) (doc : Document)
    (path : List Nat) (h : noHandlersOn doc path = true) (c : Click) :
    dispatch interp answers doc path c = c := by
  induction path generalizing c with
  | nil => rfl
  | cons j rest ih =>
    simp only [noHandlersOn, List.all_cons, Bool.and_eq_true] at h
    have hrest : noHandlersOn doc rest = true := h.2
    rw [dispatch]
    split
    · rfl
    · cases hj : doc[j]? with
      | none => simp only [ih hrest]
      | some el =>
        have hel : noHandlers el = true := by simpa [hj] using h.1
        simp only [handleAt, handlersOf_noHandlers interp el hel, invokeListeners, ih hrest]

theorem dispatch_confirmations (interp : String → Effect) (answers : Nat → Bool)
    (doc : Document) (path : List Nat) (h : onlyConfirmationsOn doc path = true) (c : Click)
    (hc1 : c.event.propagationStopped = false)
    (hc2 : c.event.immediatePropagationStopped = false) :
    (dispatch interp answers doc path c).prompts = c.prompts ++ pathPrompts doc path ∧
    (dispatch interp answers doc path c).ran = c.ran ++ pathListeners doc path ∧
    (dispatch interp answers doc path c).event.propagationStopped = false ∧
    (dispatch interp answers doc path c).event.immediatePropagationStopped = false ∧
    ((dispatch interp answers doc path c).event.defaultPrevented = true ↔
      (c.event.defaultPrevented = true ∨
        ∃ k, k < (pathPrompts doc path).length ∧ answers (c.prompts.length + k) = false)) := by
  induction path generalizing c with
  | nil => simp [dispatch, pathPrompts, pathListeners, hc1, hc2]
  | cons j rest ih =>
    simp only [onlyConfirmationsOn, List.all_cons, Bool.and_eq_true] at h
    have hrest : onlyConfirmationsOn doc rest = true := h.2
    rw [dispatch, if_neg (by rw [hc1]; exact Bool.false_ne_true)]
    cases hj : doc[j]? with
    | none =>
      simp only [pathPrompts, pathListeners, hj, List.nil_append]
      exact ih hrest c hc1 hc2
    | some el =>
      have hel : onlyConfirmations el = true := by simpa [hj] using h.1
      obtain ⟨hh, hall⟩ := handlersOf_onlyConfirmations interp el hel
      simp only [pathPrompts, pathListeners, hj]
      obtain ⟨g1, g2, g3, g4, g5⟩ :=
        invokeListeners_confirmations answers j el.listeners hall 0 c hc2
      have hcall : handleAt interp answers j el c =
          invokeListeners answers j el.listeners 0 c := by
        rw [handleAt, hh]
      rw [hcall]
      obtain ⟨h1, h2, h3, h4, h5⟩ :=
        ih hrest (invokeListeners answers j el.listeners 0 c) (g3.trans hc1) g4
      refine ⟨?_, ?_, h3, h4, ?_⟩
      · rw [h1, g1, List.append_assoc]
      · rw [h2, g2, List.append_assoc, List.range_eq_range']
      · rw [h5, g5, g1, List.length_append, List.length_append, exists_lt_add_shift,
          or_assoc]

theorem handleAt_single_confirmation (interp : String → Effect) (answers : Nat → Bool)
    (i : Nat) (el : Element) (msg : JSValue)
    (hh : handlersOf interp el = [Listener.confirmation msg]) :
    (handleAt interp answers i el Click.fresh).prompts = [toDisplayString msg] ∧
    ((handleAt interp answers i el Click.fresh).event.defaultPrevented = true ↔
      answers 0 = false) ∧
    (answers 0 = true → (handleAt interp answers i el Click.fresh).event = Click.fresh.event) := by
  refine ⟨?_, ?_, ?_⟩
  · simp [handleAt, hh, invokeListeners, invokeListener, clickListener, confirm, Click.fresh]
    cases answers 0 <;> simp [preventDefault]
  · simp [handleAt, hh, invokeListeners, invokeListener, clickListener, confirm, Click.fresh]
    cases answers 0 <;> simp [preventDefault]
  · intro ha
    simp [handleAt, hh, invokeListeners, invokeListener, clickListener, confirm, Click.fresh,
      ha]

theorem click_eq_handleAt (interp : String → Effect) (answers : Nat → Bool) (doc : Document)
    (i : Nat) (el : Element) (hel : doc[i]? = some el)
    (hanc : noHandlersOn doc (ancestors doc i) = true) :
    click interp answers doc i = handleAt interp answers i el Click.fresh := by
  simp only [click, eventPath, dispatch, hel]
  rw [if_neg (by simp [Click.fresh]), dispatch_noHandlers interp answers _ _ hanc]

theorem handlersOf_bindButton (interp : String → Effect) (msg : JSValue) (el : Element) :
    handlersOf interp (bindButton msg el) = el.listeners ++ [Listener.confirmation msg] := by
  rw [handlersOf_of_no_onclick interp _ (hasAttribute_bindButton_onclick _ _)]
  rfl


theorem apply_of_no_match (selector : Selector) (messageKey : String) (doc : Document)
    (h : querySelectorAll selector doc = []) :
    (applyDeleteConfirmation selector messageKey doc).1 = doc := by
  unfold applyDeleteConfirmation
  simp only [h, List.foldl_nil]

theorem guarded_apply (selector : Selector) (messageKey : String) (doc : Document) :
    (if (querySelector selector doc).isSome = true then
        (applyDeleteConfirmation selector messageKey doc).1
      else doc) = (applyDeleteConfirmation selector messageKey doc).1 := by
  split
  · rfl
  · next h =>
    have hq : querySelectorAll selector doc = [] := by
      unfold querySelector at h
      cases hl : querySelectorAll selector doc with
      | nil => rfl
      | cons a l => rw [hl] at h; simp at h
    exact (apply_of_no_match selector messageKey doc hq).symm

theorem onDOMContentLoaded_eq_applyAll (doc : Document) :
    onDOMContentLoaded doc = applyAll routineBindings doc := by
  unfold onDOMContentLoaded
  simp only [guarded_apply]
  rfl

theorem bindMany_listeners (msgs : List JSValue) (el : Element) :
    (bindMany msgs el).listeners = el.listeners ++ msgs.map Listener.confirmation := by
  induction msgs generalizing el with
  | nil => simp [bindMany]
  | cons m ms ih =>
    have : bindMany (m :: ms) el = bindMany ms (bindButton m el) := rfl
    rw [this, ih]
    simp [bindButton, addEventListener, removeAttribute]

theorem sameMarkupEl_bindMany (msgs : List JSValue) (el : Element) :
    SameMarkupEl el (bindMany msgs el) := by
  induction msgs generalizing el with
  | nil => exact ⟨rfl, rfl, rfl, fun _ _ => rfl⟩
  | cons m ms ih =>
    have : bindMany (m :: ms) el = bindMany ms (bindButton m el) := rfl
    rw [this]
    have h1 := sameMarkupEl_bindButton m el
    have h2 := ih (bindButton m el)
    exact ⟨h2.1.trans h1.1, h2.2.1.trans h1.2.1, h2.2.2.1.trans h1.2.2.1,
      fun n hn => (h2.2.2.2 n hn).trans (h1.2.2.2 n hn)⟩

theorem hasAttribute_bindMany_onclick (msgs : List JSValue) (el : Element)
    (h : hasAttribute "onclick" el = false ∨ msgs ≠ []) :
    hasAttribute "onclick" (bindMany msgs el) = false := by
  induction msgs generalizing el with
  | nil =>
    rcases h with h | h
    · exact h
    · exact absurd rfl h
  | cons m ms ih =>
    have : bindMany (m :: ms) el = bindMany ms (bindButton m el) := rfl
    rw [this]
    exact ih _ (Or.inl (hasAttribute_bindButton_onclick m el))

theorem messagesFor_sameMarkup {d1 d2 : Document} (h : SameMarkup d1 d2)
    (bindings : List (Selector × String))
    (hb : ∀ b ∈ bindings, b.1.testsAttribute "onclick" = false) (i : Nat) :
    messagesFor bindings d2 i = messagesFor bindings d1 i := by
  unfold messagesFor
  congr 1
  apply List.filter_congr
  intro b hbm
  exact matchesAt_sameMarkup h b.1 (hb b hbm) i

theorem applyAll_getElem? (bindings : List (Selector × String))
    (hb : ∀ b ∈ bindings, b.1.testsAttribute "onclick" = false) (doc : Document) (i : Nat) :
    (applyAll bindings doc)[i]? = (doc[i]?).map (bindMany (messagesFor bindings doc i)) := by
  induction bindings generalizing doc with
  | nil =>
    simp only [applyAll, List.foldl_nil, messagesFor, List.filter_nil, List.map_nil, bindMany]
    cases doc[i]? <;> rfl
  | cons b bs ih =>
    have hbs : ∀ c ∈ bs, c.1.testsAttribute "onclick" = false :=
      fun c hc => hb c (List.mem_cons_of_mem _ hc)
    have hstep : applyAll (b :: bs) doc = applyAll bs (applyDeleteConfirmation b.1 b.2 doc).1 :=
      rfl
    rw [hstep, ih hbs, messagesFor_sameMarkup (sameMarkup_apply b.1 b.2 doc) bs hbs,
      apply_getElem?]
    cases hd : doc[i]? with
    | none => simp
    | some el =>
      by_cases hm : b.1.matchesAt doc i = true
      · simp only [hm, if_true, Option.map_some', messagesFor, List.filter_cons, List.map_cons]
        rfl
      · simp only [hm, if_false, Option.map_some', messagesFor, List.filter_cons]
        rfl

theorem routineBindings_avoid_onclick :
    ∀ b ∈ routineBindings, b.1.testsAttribute "onclick" = false := by
  decide

theorem onDOMContentLoaded_getElem? (doc : Document) (i : Nat) :
    (onDOMContentLoaded doc)[i]? = (doc[i]?).map (bindMany (boundMessages doc i)) := by
  rw [onDOMContentLoaded_eq_applyAll, applyAll_getElem? _ routineBindings_avoid_onclick]
  rfl

theorem mem_messagesFor (bindings : List (Selector × String)) (doc : Document) (i : Nat)
    (b : Selector × String) (hb : b ∈ bindings) (hm : b.1.matchesAt doc i = true) :
    message b.2 ∈ messagesFor bindings doc i := by
  unfold messagesFor
  exact List.mem_map.2 ⟨b, List.mem_filter.2 ⟨hb, hm⟩, rfl⟩

theorem routine_element (doc : Document) (i : Nat) (el1 : Element)
    (h : (onDOMContentLoaded doc)[i]? = some el1) :
    ∃ el, doc[i]? = some el ∧ el1 = bindMany (boundMessages doc i) el := by
  rw [onDOMContentLoaded_getElem?] at h
  cases hd : doc[i]? with
  | none => rw [hd] at h; cases h
  | some el =>
    rw [hd] at h
    exact ⟨el, rfl, (Option.some.inj h).symm⟩

theorem routine_binds_class (doc : Document) (i : Nat) (el1 : Element)
    (h : (onDOMContentLoaded doc)[i]? = some el1) (c key : String)
    (hb : (Selector.cls c, key) ∈ routineBindings) (hc : c ∈ el1.classes) :
    Listener.confirmation (message key) ∈ el1.listeners := by
  obtain ⟨el, hel, rfl⟩ := routine_element doc i el1 h
  have hcls : c ∈ el.classes := by
    rw [← (sameMarkupEl_bindMany (boundMessages doc i) el).2.1]
    exact hc
  have hm : (Selector.cls c).matchesAt doc i = true := by
    simp only [Selector.matchesAt, hel, hcls, decide_True]
  rw [bindMany_listeners]
  exact List.mem_append_right _
    (List.mem_map.2 ⟨_, mem_messagesFor routineBindings doc i _ hb hm, rfl⟩)

theorem routine_binds_marker (doc : Document) (i : Nat) (el1 : Element)
    (h : (onDOMContentLoaded doc)[i]? = some el1)
    (ht : el1.tag = "a" ∨ el1.tag = "button") (ha : hasAttribute "data-confirm" el1 = true) :
    Listener.confirmation (message "DELETE_DOCUMENT") ∈ el1.listeners := by
  obtain ⟨el, hel, rfl⟩ := routine_element doc i el1 h
  have hs := sameMarkupEl_bindMany (boundMessages doc i) el
  have hattr : hasAttribute "data-confirm" el = true := by
    unfold hasAttribute at ha ⊢
    rw [← hs.2.2.2 "data-confirm" (by decide)]
    exact ha
  have hm : dataConfirmSelector.matchesAt doc i = true := by
    rw [hs.1] at ht
    simp only [dataConfirmSelector, Selector.matchesAt, hel, hattr, Bool.and_true,
      Bool.or_eq_true, decide_eq_true_eq]
    exact ht
  rw [bindMany_listeners]
  exact List.mem_append_right _
    (List.mem_map.2 ⟨_, mem_messagesFor routineBindings doc i
      (dataConfirmSelector, "DELETE_DOCUMENT") (by decide) hm, rfl⟩)

theorem message_of_unknown_key (key : String)
    (hown : STANDARD_CONFIRMATIONS.lookup key = none)
    (hinherited : objectPrototypeFunctions.lookup key = none) (hproto : key ≠ "__proto__") :
    message key = JSValue.string "Sigur doriți să ștergeți acest document?" := by
  have hget : getProperty key = JSValue.undefined := by
    simp only [getProperty, hown, hinherited, hproto, if_false]
  simp only [message, hget, toBoolean, Bool.false_eq_true, if_false]
  rfl

theorem clickListener_flags (msg : JSValue) (answers : Nat → Bool) (c : Click) :
    (clickListener msg answers c).2.event.propagationStopped = c.event.propagationStopped ∧
    (clickListener msg answers c).2.event.immediatePropagationStopped =
      c.event.immediatePropagationStopped ∧
    (answers c.prompts.length = false →
      (clickListener msg answers c).1 = false ∧
      (clickListener msg answers c).2.event.defaultPrevented = true) ∧
    (answers c.prompts.length = true →
      (clickListener msg answers c).1 = true ∧
      (clickListener msg answers c).2.event = c.event) := by
  simp only [clickListener, confirm, preventDefault]
  cases answers c.prompts.length <;> simp

theorem click_confirmations (interp : String → Effect) (answers : Nat → Bool) (doc : Document)
    (i : Nat) (h : onlyConfirmationsOn doc (eventPath doc i) = true) :
    (click interp answers doc i).prompts = pathPrompts doc (eventPath doc i) ∧
    (click interp answers doc i).ran = pathListeners doc (eventPath doc i) ∧
    ((click interp answers doc i).event.defaultPrevented = false ↔
      ∀ k, k < (pathPrompts doc (eventPath doc i)).length → answers k = true) := by
  obtain ⟨h1, h2, _, _, h5⟩ :=
    dispatch_confirmations interp answers doc (eventPath doc i) h Click.fresh rfl rfl
  refine ⟨?_, ?_, ?_⟩
  · rw [click, h1]; rfl
  · rw [click, h2]; rfl
  · rw [click, ← Bool.not_eq_true, h5]
    simp [Click.fresh]

theorem all_isConfirmation_map (msgs : List JSValue) :
    (msgs.map Listener.confirmation).all Listener.isConfirmation = true := by
  induction msgs with
  | nil => rfl
  | cons m ms ih => simp [Listener.isConfirmation, ih]

theorem promptsOf_map_confirmation (msgs : List JSValue) :
    promptsOf (msgs.map Listener.confirmation) = msgs.map toDisplayString := by
  induction msgs with
  | nil => rfl
  | cons m ms ih => simp only [List.map_cons, promptsOf, ih]

theorem handleAt_bound_only (interp : String → Effect) (answers : Nat → Bool) (i : Nat)
    (el : Element) (msgs : List JSValue) (hnone : el.listeners = []) (hne : msgs ≠ []) :
    (handleAt interp answers i (bindMany msgs el) Click.fresh).prompts =
      msgs.map toDisplayString ∧
    ((handleAt interp answers i (bindMany msgs el) Click.fresh).event.defaultPrevented = false ↔
      ∀ k, k < msgs.length → answers k = true) := by
  have hh : handlersOf interp (bindMany msgs el) = msgs.map Listener.confirmation := by
    rw [handlersOf_of_no_onclick interp _ (hasAttribute_bindMany_onclick msgs el (Or.inr hne)),
      bindMany_listeners, hnone, List.nil_append]
  obtain ⟨h1, _, _, _, h5⟩ := invokeListeners_confirmations answers i
    (msgs.map Listener.confirmation) (all_isConfirmation_map msgs) 0 Click.fresh rfl
  rw [handleAt, hh]
  refine ⟨?_, ?_⟩
  · rw [h1, promptsOf_map_confirmation]; rfl
  · rw [← Bool.not_eq_true, h5, promptsOf_map_confirmation]
    simp [Click.fresh]

theorem parentOf_lt (doc : Document) (i p : Nat) (h : parentOf doc i = some p) : p < i := by
  unfold parentOf at h
  split at h
  · split at h
    · split at h
      · next hlt => cases h; exact hlt
      · cases h
    · cases h
  · cases h

theorem ancestorsAux_enough (doc : Document) (i fuel : Nat) (h : i ≤ fuel) :
    ancestorsAux doc fuel i = ancestors doc i := by
  unfold ancestors
  induction i using Nat.strong_induction_on generalizing fuel with
  | _ i ih =>
    cases hp : parentOf doc i with
    | none =>
      cases fuel <;> cases i <;> simp [ancestorsAux, hp]
    | some p =>
      have hlt := parentOf_lt doc i p hp
      cases fuel with
      | zero => omega
      | succ f =>
        cases i with
        | zero => omega
        | succ n =>
          simp only [ancestorsAux, hp]
          rw [ih p hlt f (by omega), ih p hlt n (by omega)]

theorem applyAll_length (bindings : List (Selector × String)) (doc : Document) :
    (applyAll bindings doc).length = doc.length := by
  induction bindings generalizing doc with
  | nil => rfl
  | cons b bs ih =>
    have hstep : applyAll (b :: bs) doc = applyAll bs (applyDeleteConfirmation b.1 b.2 doc).1 :=
      rfl
    rw [hstep, ih, apply_length]

theorem onDOMContentLoaded_length (doc : Document) :
    (onDOMContentLoaded doc).length = doc.length := by
  rw [onDOMContentLoaded_eq_applyAll, applyAll_length]

theorem invokeListener_ran (answers : Nat → Bool) (l : Listener) (c : Click) :
    (invokeListener answers l c).ran = c.ran := by
  cases l with
  | confirmation msg => exact (invokeListener_confirmation answers msg c).2.1
  | foreign n e => rfl

theorem invokeListener_sameFlow (a1 a2 : Nat → Bool) (l : Listener) (c1 c2 : Click)
    (h : SameFlow c1 c2) : SameFlow (invokeListener a1 l c1) (invokeListener a2 l c2) := by
  obtain ⟨h1, h2, h3⟩ := h
  cases l with
  | confirmation msg =>
    obtain ⟨_, g2, g3, g4, _⟩ := invokeListener_confirmation a1 msg c1
    obtain ⟨_, k2, k3, k4, _⟩ := invokeListener_confirmation a2 msg c2
    exact ⟨by rw [g2, k2, h1], by rw [g3, k3, h2], by rw [g4, k4, h3]⟩
  | foreign n e =>
    refine ⟨h1, ?_, ?_⟩
    · simp only [invokeListener, applyEffect, h2]
    · simp only [invokeListener, applyEffect, h3]

theorem invokeListeners_sameFlow (a1 a2 : Nat → Bool) (idx : Nat) (ls : List Listener)
    (pos : Nat) (c1 c2 : Click) (h : SameFlow c1 c2) :
    SameFlow (invokeListeners a1 idx ls pos c1) (invokeListeners a2 idx ls pos c2) := by
  induction ls generalizing pos c1 c2 with
  | nil => exact h
  | cons l ls ih =>
    rw [invokeListeners, invokeListeners]
    by_cases hs : c1.event.immediatePropagationStopped = true
    · rw [if_pos hs, if_pos (h.2.2 ▸ hs)]
      exact h
    · rw [if_neg hs, if_neg (h.2.2 ▸ hs)]
      apply ih
      apply invokeListener_sameFlow
      exact ⟨by simp only [h.1], h.2.1, h.2.2⟩

theorem dispatch_sameFlow (interp : String → Effect) (a1 a2 : Nat → Bool) (doc : Document)
    (path : List Nat) (c1 c2 : Click) (h : SameFlow c1 c2) :
    SameFlow (dispatch interp a1 doc path c1) (dispatch interp a2 doc path c2) := by
  induction path generalizing c1 c2 with
  | nil => exact h
  | cons j rest ih =>
    rw [dispatch, dispatch]
    by_cases hs : c1.event.propagationStopped = true
    · rw [if_pos hs, if_pos (h.2.1 ▸ hs)]
      exact h
    · rw [if_neg hs, if_neg (h.2.1 ▸ hs)]
      cases doc[j]? with
      | none => exact ih c1 c2 h
      | some el => exact ih _ _ (invokeListeners_sameFlow a1 a2 j _ 0 c1 c2 h)

theorem click_ran_independent (interp : String → Effect) (a1 a2 : Nat → Bool)
    (doc : Document) (i : Nat) :
    (click interp a1 doc i).ran = (click interp a2 doc i).ran :=
  (dispatch_sameFlow interp a1 a2 doc (eventPath doc i) Click.fresh Click.fresh
    ⟨rfl, rfl, rfl⟩).1

theorem ran_mono_invokeListeners (answers : Nat → Bool) (idx : Nat) (ls : List Listener)
    (pos : Nat) (c : Click) (x : Nat × Nat) (hx : x ∈ c.ran) :
    x ∈ (invokeListeners answers idx ls pos c).ran := by
  induction ls generalizing pos c with
  | nil => exact hx
  | cons l ls ih =>
    rw [invokeListeners]
    split
    · exact hx
    · apply ih
      rw [invokeListener_ran]
      exact List.mem_append_left _ hx

theorem next_listener_runs (answers : Nat → Bool) (idx pos : Nat) (msg : JSValue)
    (l : Listener) (rest : List Listener) (c : Click)
    (hc : c.event.immediatePropagationStopped = false) :
    (idx, pos + 1) ∈
      (invokeListeners answers idx (Listener.confirmation msg :: l :: rest) pos c).ran := by
  have h4 := (invokeListener_confirmation answers msg
    { c with ran := c.ran ++ [(idx, pos)] }).2.2.2.1
  rw [invokeListeners, if_neg (by rw [hc]; exact Bool.false_ne_true), invokeListeners,
    if_neg (by rw [h4]; exact (by rw [hc]; exact Bool.false_ne_true))]
  apply ran_mono_invokeListeners
  rw [invokeListener_ran]
  exact List.mem_append_right _ (List.mem_singleton.2 rfl)

theorem clickListener_declined (msg : JSValue) (answers : Nat → Bool) (c : Click)
    (h : answers c.prompts.length = false) :
    (clickListener msg answers c).1 = false ∧
    (clickListener msg answers c).2.event = { c.event with defaultPrevented := true } ∧
    (clickListener msg answers c).2.ran = c.ran := by
  simp only [clickListener, confirm, preventDefault, h]
  simp

/-! ## The claims -/

/-- C1, as stated, fails: a button that `applyDeleteConfirmation` bound exactly once and
that carries no other click listener sits in a block whose inline handler returns `false`;
the user confirms the prompt of the click, yet the default action is prevented, by the
handler of the ancestor reached by bubbling. The same happens on the nested page after the
routine, where the user confirms the prompt of the button and declines that of the
enclosing link. -/
theorem C1_ancestor_handler_prevents_confirmed_click :
    1 ∈ querySelectorAll (Selector.cls "delete-user-btn") cancellingWrapperPage ∧
    ((applyDeleteConfirmation (Selector.cls "delete-user-btn") "DELETE_USER"
      cancellingWrapperPage).1[1]?).map (handlersOf returnFalseMarkup) =
      some [Listener.confirmation (message "DELETE_USER")] ∧
    alwaysConfirm 0 = true ∧
    (click returnFalseMarkup alwaysConfirm
      (applyDeleteConfirmation (Selector.cls "delete-user-btn") "DELETE_USER"
        cancellingWrapperPage).1 1).prompts =
      ["Sigur doriți să ștergeți acest utilizator?"] ∧
    (click returnFalseMarkup alwaysConfirm
      (applyDeleteConfirmation (Selector.cls "delete-user-btn") "DELETE_USER"
        cancellingWrapperPage).1 1).event.defaultPrevented = true ∧
    ((onDOMContentLoaded nestedPage)[1]?).map (handlersOf inertMarkup) =
      some [Listener.confirmation (message "DELETE_USER")] ∧
    confirmFirstOnly 0 = true ∧
    (click inertMarkup confirmFirstOnly (onDOMContentLoaded nestedPage)
      1).event.defaultPrevented = true := by
  refine ⟨by decide, by decide, by decide, by decide, by decide, by decide, by decide,
    by decide⟩

/-- C1, amended: an element matched by `applyDeleteConfirmation` that carried no click
listener before, and none of whose ancestors carries a click handler, is left with the
bound listener as its only click handler; a click on it displays that one prompt, the
default action is prevented exactly when the user declines it, and when the user confirms
the event is left as it was, so the default action proceeds. -/
theorem C1_bound_once_default_prevented_iff_declined
    (doc : Document) (selector : Selector) (messageKey : String) (i : Nat) (el : Element)
    (hel : doc[i]? = some el) (hi : i ∈ querySelectorAll selector doc)
    (hnone : el.listeners = [])
    (interp : String → Effect)
    (hanc : noHandlersOn (applyDeleteConfirmation selector messageKey doc).1
      (ancestors (applyDeleteConfirmation selector messageKey doc).1 i) = true)
    (answers : Nat → Bool) :
    ∃ el1, (applyDeleteConfirmation selector messageKey doc).1[i]? = some el1 ∧
      handlersOf interp el1 = [Listener.confirmation (message messageKey)] ∧
      (click interp answers (applyDeleteConfirmation selector messageKey doc).1 i).prompts =
        [toDisplayString (message messageKey)] ∧
      ((click interp answers (applyDeleteConfirmation selector messageKey doc).1
          i).event.defaultPrevented = true ↔ answers 0 = false) ∧
      (answers 0 = true →
        (click interp answers (applyDeleteConfirmation selector messageKey doc).1 i).event =
          Click.fresh.event ∧
        (click interp answers (applyDeleteConfirmation selector messageKey doc).1
          i).event.defaultPrevented = false) := by
  have hm := ((mem_querySelectorAll selector doc i).1 hi).2
  have h1 : (applyDeleteConfirmation selector messageKey doc).1[i]? =
      some (bindButton (message messageKey) el) := by
    rw [apply_getElem?, if_pos hm, hel]
    rfl
  have hh : handlersOf interp (bindButton (message messageKey) el) =
      [Listener.confirmation (message messageKey)] := by
    rw [handlersOf_bindButton, hnone]
    rfl
  obtain ⟨g1, g2, g3⟩ := handleAt_single_confirmation interp answers i _ _ hh
  rw [click_eq_handleAt interp answers _ i _ h1 hanc]
  refine ⟨bindButton (message messageKey) el, h1, hh, g1, g2, fun ha => ⟨g3 ha, ?_⟩⟩
  rw [g3 ha]
  rfl

/-- C1, amended, on the button of the first scenario inside a plain block, bound with
`DELETE_USER`: the click of a user who declines is default prevented, the click of a user
who confirms is not. -/
theorem C1_wrapped_button_declined_and_confirmed :
    (wrappedButtonPage[1]? = some wrappedUserButton ∧
      wrappedUserButton.listeners = [] ∧
      1 ∈ querySelectorAll (Selector.cls "delete-user-btn") wrappedButtonPage ∧
      noHandlersOn (applyDeleteConfirmation (Selector.cls "delete-user-btn") "DELETE_USER"
            wrappedButtonPage).1
          (ancestors (applyDeleteConfirmation (Selector.cls "delete-user-btn") "DELETE_USER"
            wrappedButtonPage).1 1) = true ∧
      ancestors (applyDeleteConfirmation (Selector.cls "delete-user-btn") "DELETE_USER"
            wrappedButtonPage).1 1 = [0]) ∧
    alwaysDecline 0 = false ∧
    (click inertMarkup alwaysDecline (applyDeleteConfirmation
      (Selector.cls "delete-user-btn") "DELETE_USER" wrappedButtonPage).1 1).prompts =
        [toDisplayString (message "DELETE_USER")] ∧
    (click inertMarkup alwaysDecline (applyDeleteConfirmation
      (Selector.cls "delete-user-btn") "DELETE_USER" wrappedButtonPage).1
        1).event.defaultPrevented = true ∧
    alwaysConfirm 0 = true ∧
    (click inertMarkup alwaysConfirm (applyDeleteConfirmation
      (Selector.cls "delete-user-btn") "DELETE_USER" wrappedButtonPage).1
        1).event.defaultPrevented = false := by
  obtain ⟨_, _, _, h3, h4, _⟩ :=
    C1_bound_once_default_prevented_iff_declined wrappedButtonPage
      (Selector.cls "delete-user-btn") "DELETE_USER" 1 wrappedUserButton (by decide)
      (by decide) (by decide) inertMarkup (by decide) alwaysDecline
  obtain ⟨_, _, _, _, _, k5⟩ :=
    C1_bound_once_default_prevented_iff_declined wrappedButtonPage
      (Selector.cls "delete-user-btn") "DELETE_USER" 1 wrappedUserButton (by decide)
      (by decide) (by decide) inertMarkup (by decide) alwaysConfirm
  exact ⟨⟨by decide, by decide, by decide, by decide, by decide⟩, by decide, h3,
    h4.2 (by decide), by decide, (k5 (by decide)).2⟩

/-- C2, as stated, fails: on `<button class="delete-user-btn" data-confirm>` already bound
with `DELETE_USER` (line 48), the binding of line 64 with the catalog key `DELETE_DOCUMENT`
leaves a click that displays two prompts, not one, and the first is not the entry of
`DELETE_DOCUMENT`. A single call is enough when the selector matches an element and its
ancestor: after a call with the selector `*` on the nested page, a click on the button
displays the prompt twice. -/
theorem C2_element_bound_before_prompts_twice :
    ("DELETE_DOCUMENT", "Sigur doriți să ștergeți acest document?") ∈ STANDARD_CONFIRMATIONS ∧
    0 ∈ querySelectorAll dataConfirmSelector
      (applyDeleteConfirmation (Selector.cls "delete-user-btn") "DELETE_USER"
        [markedUserButton]).1 ∧
    (click inertMarkup alwaysConfirm
      (applyDeleteConfirmation dataConfirmSelector "DELETE_DOCUMENT"
        (applyDeleteConfirmation (Selector.cls "delete-user-btn") "DELETE_USER"
          [markedUserButton]).1).1 0).prompts =
      ["Sigur doriți să ștergeți acest utilizator?",
       "Sigur doriți să ștergeți acest document?"] ∧
    ¬ ((click inertMarkup alwaysConfirm
      (applyDeleteConfirmation dataConfirmSelector "DELETE_DOCUMENT"
        (applyDeleteConfirmation (Selector.cls "delete-user-btn") "DELETE_USER"
          [markedUserButton]).1).1 0).prompts =
      ["Sigur doriți să ștergeți acest document?"]) ∧
    1 ∈ querySelectorAll Selector.universal nestedPage ∧
    (click inertMarkup alwaysConfirm
      (applyDeleteConfirmation Selector.universal "DELETE_USER" nestedPage).1 1).prompts =
      ["Sigur doriți să ștergeți acest utilizator?",
       "Sigur doriți să ștergeți acest utilizator?"] := by
  refine ⟨by decide, by decide, by decide, by decide, by decide, by decide⟩

/-- C2, amended: for a key of the catalog the message resolved is the entry of that key,
the call adds to every matched element one listener, and that listener displays exactly
that text, once, each time it runs. A click on a matched element that carried no click
listener before the call displays that one prompt at the element, and it is the only
prompt of the click when no ancestor carries a click handler. -/
theorem C2_catalog_key_prompts_with_its_entry
    (key text : String) (hkey : (key, text) ∈ STANDARD_CONFIRMATIONS)
    (doc : Document) (selector : Selector) (i : Nat)
    (hi : i ∈ querySelectorAll selector doc)
    (interp : String → Effect) (answers : Nat → Bool) :
    message key = JSValue.string text ∧
    ∃ el el1, doc[i]? = some el ∧
      (applyDeleteConfirmation selector key doc).1[i]? = some el1 ∧
      el1.listeners = el.listeners ++ [Listener.confirmation (JSValue.string text)] ∧
      (∀ c : Click,
        (invokeListener answers (Listener.confirmation (JSValue.string text)) c).prompts =
          c.prompts ++ [text]) ∧
      (el.listeners = [] →
        (handleAt interp answers i el1 Click.fresh).prompts = [text]) ∧
      (el.listeners = [] →
        noHandlersOn (applyDeleteConfirmation selector key doc).1
          (ancestors (applyDeleteConfirmation selector key doc).1 i) = true →
        (click interp answers (applyDeleteConfirmation selector key doc).1 i).prompts =
          [text]) := by
  have hmsg := message_of_catalog key text hkey
  obtain ⟨hlt, hm⟩ := (mem_querySelectorAll selector doc i).1 hi
  have hel : doc[i]? = some doc[i] := List.getElem?_eq_getElem hlt
  refine ⟨hmsg, doc[i], bindButton (message key) doc[i], hel, ?_, ?_, ?_, ?_, ?_⟩
  · rw [apply_getElem?, if_pos hm, hel]
    rfl
  · rw [hmsg]
    rfl
  · intro c
    exact (invokeListener_confirmation answers (JSValue.string text) c).1
  · intro hnone
    have hh : handlersOf interp (bindButton (message key) doc[i]) =
        [Listener.confirmation (message key)] := by
      rw [handlersOf_bindButton, hnone]
      rfl
    rw [(handleAt_single_confirmation interp answers i _ _ hh).1, hmsg]
    rfl
  · intro hnone hanc
    have hh : handlersOf interp (bindButton (message key) doc[i]) =
        [Listener.confirmation (message key)] := by
      rw [handlersOf_bindButton, hnone]
      rfl
    have h1 : (applyDeleteConfirmation selector key doc).1[i]? =
        some (bindButton (message key) doc[i]) := by
      rw [apply_getElem?, if_pos hm, hel]
      rfl
    rw [click_eq_handleAt interp answers _ i _ h1 hanc,
      (handleAt_single_confirmation interp answers i _ _ hh).1, hmsg]
    rfl

/-- C2, amended, on the button of the first scenario bound with the catalog key
`DELETE_USER`. -/
theorem C2_user_button_prompts_once :
    (("DELETE_USER", "Sigur doriți să ștergeți acest utilizator?") ∈ STANDARD_CONFIRMATIONS ∧
      0 ∈ querySelectorAll (Selector.cls "delete-user-btn") [userButton]) ∧
    message "DELETE_USER" = JSValue.string "Sigur doriți să ștergeți acest utilizator?" ∧
    (click inertMarkup alwaysConfirm
      (applyDeleteConfirmation (Selector.cls "delete-user-btn") "DELETE_USER"
        [userButton]).1 0).prompts = ["Sigur doriți să ștergeți acest utilizator?"] := by
  obtain ⟨h1, el, el1, h2, _, _, _, _, h7⟩ :=
    C2_catalog_key_prompts_with_its_entry "DELETE_USER"
      "Sigur doriți să ștergeți acest utilizator?" (by decide) [userButton]
      (Selector.cls "delete-user-btn") 0 (by decide) inertMarkup alwaysConfirm
  have hel : el = userButton := by
    have : [userButton][0]? = some userButton := by decide
    rw [this] at h2
    exact (Option.some.inj h2).symm
  exact ⟨⟨by decide, by decide⟩, h1, h7 (by rw [hel]; decide) (by decide)⟩

/-- C3, the failing input: `toString` is not a key of the catalog, yet the lookup of line 25
finds the function every object inherits under that name, which is truthy, so no fallback
happens and a click displays the source text of that function instead of the text of
`DELETE_DOCUMENT`. -/
theorem C3_inherited_key_is_not_replaced_by_default :
    STANDARD_CONFIRMATIONS.lookup "toString" = none ∧
    message "toString" = JSValue.nativeFunction "toString" ∧
    (click inertMarkup alwaysConfirm
      (applyDeleteConfirmation dataConfirmSelector "toString" [confirmLink]).1 0).prompts =
      ["function toString() \x7b [native code] \x7d"] ∧
    (click inertMarkup alwaysConfirm
      (applyDeleteConfirmation dataConfirmSelector "toString" [confirmLink]).1 0).prompts ≠
      ["Sigur doriți să ștergeți acest document?"] := by
  refine ⟨by decide, by decide, by decide, by decide⟩

/-- C4: after `applyDeleteConfirmation(selector, key)` every element matched by the
selector has no inline `onclick` attribute, whatever it held before, and has gained exactly
one click listener, added after those it had, which prompts with the resolved message. -/
theorem C4_matched_element_loses_onclick_gains_one_listener
    (doc : Document) (selector : Selector) (messageKey : String) (i : Nat)
    (hi : i ∈ querySelectorAll selector doc) :
    ∃ el el1, doc[i]? = some el ∧
      (applyDeleteConfirmation selector messageKey doc).1[i]? = some el1 ∧
      hasAttribute "onclick" el1 = false ∧
      el1.listeners = el.listeners ++ [Listener.confirmation (message messageKey)] ∧
      ∀ (answers : Nat → Bool) (c : Click),
        (invokeListener answers (Listener.confirmation (message messageKey)) c).prompts =
          c.prompts ++ [toDisplayString (message messageKey)] := by
  obtain ⟨hlt, hm⟩ := (mem_querySelectorAll selector doc i).1 hi
  refine ⟨doc[i], bindButton (message messageKey) doc[i], List.getElem?_eq_getElem hlt, ?_,
    hasAttribute_bindButton_onclick _ _, rfl,
    fun answers c => (invokeListener_confirmation answers _ c).1⟩
  rw [apply_getElem?, if_pos hm, List.getElem?_eq_getElem hlt]
  rfl

/-- C4, the scenario of the specification: the button with class `delete-user-btn` and an
inline `onclick="return confirm('old message')"`, bound with `DELETE_USER`; a click then
shows the user deletion text, and declining it prevents the default action. -/
theorem C4_user_button_scenario :
    0 ∈ querySelectorAll (Selector.cls "delete-user-btn") [userButton] ∧
    (∃ el el1, [userButton][0]? = some el ∧
      (applyDeleteConfirmation (Selector.cls "delete-user-btn") "DELETE_USER"
        [userButton]).1[0]? = some el1 ∧
      hasAttribute "onclick" el1 = false ∧
      el1.listeners = el.listeners ++ [Listener.confirmation (message "DELETE_USER")] ∧
      ∀ (answers : Nat → Bool) (c : Click),
        (invokeListener answers (Listener.confirmation (message "DELETE_USER")) c).prompts =
          c.prompts ++ [toDisplayString (message "DELETE_USER")]) ∧
    toDisplayString (message "DELETE_USER") = "Sigur doriți să ștergeți acest utilizator?" ∧
    (click inertMarkup alwaysDecline
      (applyDeleteConfirmation (Selector.cls "delete-user-btn") "DELETE_USER"
        [userButton]).1 0).prompts = ["Sigur doriți să ștergeți acest utilizator?"] ∧
    (click inertMarkup alwaysDecline
      (applyDeleteConfirmation (Selector.cls "delete-user-btn") "DELETE_USER"
        [userButton]).1 0).event.defaultPrevented = true :=
  ⟨by decide,
    C4_matched_element_loses_onclick_gains_one_listener [userButton]
      (Selector.cls "delete-user-btn") "DELETE_USER" 0 (by decide),
    by decide, by decide, by decide⟩

/-- C5: the `DOMContentLoaded` routine keeps every element of the page in its place, with
its tag, its classes and its `data-confirm` attribute, and afterwards every element with
one of the five classes carries a click listener that prompts with the catalog text of the
corresponding key, and every `a` or `button` element with a `data-confirm` attribute
carries a click listener that prompts with the text of `DELETE_DOCUMENT`, whether or not a
class selector matched. -/
theorem C5_routine_binds_every_marked_element
    (doc : Document) (i : Nat) (el : Element) (hel : doc[i]? = some el) :
    (onDOMContentLoaded doc).length = doc.length ∧
    ∃ el1, (onDOMContentLoaded doc)[i]? = some el1 ∧
      el1.tag = el.tag ∧ el1.classes = el.classes ∧
      hasAttribute "data-confirm" el1 = hasAttribute "data-confirm" el ∧
      ("delete-document-btn" ∈ el.classes →
        Listener.confirmation (JSValue.string "Sigur doriți să ștergeți acest document?")
          ∈ el1.listeners) ∧
      ("delete-user-btn" ∈ el.classes →
        Listener.confirmation (JSValue.string "Sigur doriți să ștergeți acest utilizator?")
          ∈ el1.listeners) ∧
      ("delete-gestiune-btn" ∈ el.classes →
        Listener.confirmation (JSValue.string "Sigur doriți să ștergeți această gestiune?")
          ∈ el1.listeners) ∧
      ("delete-tipologie-btn" ∈ el.classes →
        Listener.confirmation (JSValue.string "Sigur doriți să ștergeți această tipologie?")
          ∈ el1.listeners) ∧
      ("delete-range-btn" ∈ el.classes →
        Listener.confirmation
          (JSValue.string "Sigur doriți să ștergeți această plajă de numere?")
          ∈ el1.listeners) ∧
      ((el.tag = "a" ∨ el.tag = "button") → hasAttribute "data-confirm" el = true →
        Listener.confirmation (JSValue.string "Sigur doriți să ștergeți acest document?")
          ∈ el1.listeners) ∧
      (∀ (text : String) (answers : Nat → Bool) (c : Click),
        (invokeListener answers (Listener.confirmation (JSValue.string text)) c).prompts =
          c.prompts ++ [text]) ∧
      STANDARD_CONFIRMATIONS.lookup "DELETE_DOCUMENT" =
        some "Sigur doriți să ștergeți acest document?" ∧
      STANDARD_CONFIRMATIONS.lookup "DELETE_USER" =
        some "Sigur doriți să ștergeți acest utilizator?" ∧
      STANDARD_CONFIRMATIONS.lookup "DELETE_GESTIUNE" =
        some "Sigur doriți să ștergeți această gestiune?" ∧
      STANDARD_CONFIRMATIONS.lookup "DELETE_TIPOLOGIE" =
        some "Sigur doriți să ștergeți această tipologie?" ∧
      STANDARD_CONFIRMATIONS.lookup "DELETE_RANGE" =
        some "Sigur doriți să ștergeți această plajă de numere?" := by
  have h : (onDOMContentLoaded doc)[i]? = some (bindMany (boundMessages doc i) el) := by
    rw [onDOMContentLoaded_getElem?, hel]
    rfl
  have hs := sameMarkupEl_bindMany (boundMessages doc i) el
  have hattr : hasAttribute "data-confirm" (bindMany (boundMessages doc i) el) =
      hasAttribute "data-confirm" el := by
    unfold hasAttribute
    rw [hs.2.2.2 "data-confirm" (by decide)]
  refine ⟨onDOMContentLoaded_length doc, bindMany (boundMessages doc i) el, h, hs.1, hs.2.1,
    hattr, ?_, ?_, ?_, ?_, ?_, ?_, ?_, rfl, rfl, rfl, rfl, rfl⟩
  · intro hc
    exact routine_binds_class doc i _ h "delete-document-btn" "DELETE_DOCUMENT" (by decide)
      (hs.2.1 ▸ hc)
  · intro hc
    exact routine_binds_class doc i _ h "delete-user-btn" "DELETE_USER" (by decide)
      (hs.2.1 ▸ hc)
  · intro hc
    exact routine_binds_class doc i _ h "delete-gestiune-btn" "DELETE_GESTIUNE" (by decide)
      (hs.2.1 ▸ hc)
  · intro hc
    exact routine_binds_class doc i _ h "delete-tipologie-btn" "DELETE_TIPOLOGIE" (by decide)
      (hs.2.1 ▸ hc)
  · intro hc
    exact routine_binds_class doc i _ h "delete-range-btn" "DELETE_RANGE" (by decide)
      (hs.2.1 ▸ hc)
  · intro ht ha
    exact routine_binds_marker doc i _ h (hs.1 ▸ ht) (hattr ▸ ha)
  · intro text answers c
    exact (invokeListener_confirmation answers (JSValue.string text) c).1

/-- C5 on a page with one element for each of the five classes and, last, the lone link
`<a data-confirm href="/docs/5/delete">` of the second scenario, which no class selector
matches: each of the six ends with the listener of its own message. -/
theorem C5_delete_page_and_lone_confirm_link :
    (deletePage[0]? = some documentButton ∧ "delete-document-btn" ∈ documentButton.classes ∧
      deletePage[1]? = some plainUserButton ∧ "delete-user-btn" ∈ plainUserButton.classes ∧
      deletePage[2]? = some gestiuneLink ∧ "delete-gestiune-btn" ∈ gestiuneLink.classes ∧
      deletePage[3]? = some tipologieButton ∧
      "delete-tipologie-btn" ∈ tipologieButton.classes ∧
      deletePage[4]? = some rangeButton ∧ "delete-range-btn" ∈ rangeButton.classes ∧
      deletePage[5]? = some confirmLink ∧
      (confirmLink.tag = "a" ∨ confirmLink.tag = "button") ∧
      hasAttribute "data-confirm" confirmLink = true) ∧
    (∃ el1, (onDOMContentLoaded deletePage)[0]? = some el1 ∧
      Listener.confirmation (JSValue.string "Sigur doriți să ștergeți acest document?")
        ∈ el1.listeners) ∧
    (∃ el1, (onDOMContentLoaded deletePage)[1]? = some el1 ∧
      Listener.confirmation (JSValue.string "Sigur doriți să ștergeți acest utilizator?")
        ∈ el1.listeners) ∧
    (∃ el1, (onDOMContentLoaded deletePage)[2]? = some el1 ∧
      Listener.confirmation (JSValue.string "Sigur doriți să ștergeți această gestiune?")
        ∈ el1.listeners) ∧
    (∃ el1, (onDOMContentLoaded deletePage)[3]? = some el1 ∧
      Listener.confirmation (JSValue.string "Sigur doriți să ștergeți această tipologie?")
        ∈ el1.listeners) ∧
    (∃ el1, (onDOMContentLoaded deletePage)[4]? = some el1 ∧
      Listener.confirmation
        (JSValue.string "Sigur doriți să ștergeți această plajă de numere?")
        ∈ el1.listeners) ∧
    (∃ el1, (onDOMContentLoaded deletePage)[5]? = some el1 ∧
      Listener.confirmation (JSValue.string "Sigur doriți să ștergeți acest document?")
        ∈ el1.listeners) ∧
    (click inertMarkup alwaysConfirm (onDOMContentLoaded deletePage) 5).prompts =
      ["Sigur doriți să ștergeți acest document?"] ∧
    (click inertMarkup alwaysConfirm (onDOMContentLoaded [confirmLink]) 0).prompts =
      ["Sigur doriți să ștergeți acest document?"] := by
  obtain ⟨_, a, a1, _, _, _, a2, _⟩ :=
    C5_routine_binds_every_marked_element deletePage 0 documentButton (by decide)
  obtain ⟨_, b, b1, _, _, _, _, b2, _⟩ :=
    C5_routine_binds_every_marked_element deletePage 1 plainUserButton (by decide)
  obtain ⟨_, c, c1, _, _, _, _, _, c2, _⟩ :=
    C5_routine_binds_every_marked_element deletePage 2 gestiuneLink (by decide)
  obtain ⟨_, d, d1, _, _, _, _, _, _, d2, _⟩ :=
    C5_routine_binds_every_marked_element deletePage 3 tipologieButton (by decide)
  obtain ⟨_, e, e1, _, _, _, _, _, _, _, e2, _⟩ :=
    C5_routine_binds_every_marked_element deletePage 4 rangeButton (by decide)
  obtain ⟨_, f, f1, _, _, _, _, _, _, _, _, f2, _⟩ :=
    C5_routine_binds_every_marked_element deletePage 5 confirmLink (by decide)
  exact ⟨by decide, ⟨a, a1, a2 (by decide)⟩, ⟨b, b1, b2 (by decide)⟩,
    ⟨c, c1, c2 (by decide)⟩, ⟨d, d1, d2 (by decide)⟩, ⟨e, e1, e2 (by decide)⟩,
    ⟨f, f1, f2 (by decide) (by decide)⟩, by decide, by decide⟩

/-- C6: a selector that matches no element of the document makes
`applyDeleteConfirmation` a no-op: the document is returned as it was (no listener attached,
no attribute removed) and the call completes with `undefined`. -/
theorem C6_selector_without_match_is_noop
    (doc : Document) (selector : Selector) (messageKey : String)
    (h : querySelectorAll selector doc = []) :
    applyDeleteConfirmation selector messageKey doc = (doc, JSValue.undefined) := by
  unfold applyDeleteConfirmation
  simp only [h, List.foldl_nil]

/-- C6 on a page with one paragraph and a selector for a class it does not carry. -/
theorem C6_paragraph_page :
    querySelectorAll (Selector.cls "delete-user-btn") [paragraph] = [] ∧
    applyDeleteConfirmation (Selector.cls "delete-user-btn") "DELETE_USER" [paragraph] =
      ([paragraph], JSValue.undefined) :=
  ⟨by decide,
    C6_selector_without_match_is_noop [paragraph] (Selector.cls "delete-user-btn")
      "DELETE_USER" (by decide)⟩

/-- C7: `applyDeleteConfirmation` returns no value and changes nothing but the event
bindings of the matched elements: the document keeps its length, an element the selector
does not match is unchanged, and a matched element keeps its tag, classes, parent, every
attribute other than `onclick` (in order) and its listeners (in order), with one listener
added after them. -/
theorem C7_only_bindings_of_matched_elements_change
    (doc : Document) (selector : Selector) (messageKey : String) :
    (applyDeleteConfirmation selector messageKey doc).2 = JSValue.undefined ∧
    (applyDeleteConfirmation selector messageKey doc).1.length = doc.length ∧
    ∀ (j : Nat) (el : Element), doc[j]? = some el →
      (j ∉ querySelectorAll selector doc →
        (applyDeleteConfirmation selector messageKey doc).1[j]? = some el) ∧
      (j ∈ querySelectorAll selector doc →
        (applyDeleteConfirmation selector messageKey doc).1[j]? =
          some { tag := el.tag, classes := el.classes,
                 attrs := el.attrs.filter (fun a => !decide (a.1 = "onclick")),
                 listeners := el.listeners ++ [Listener.confirmation (message messageKey)],
                 parent := el.parent }) := by
  refine ⟨rfl, apply_length selector messageKey doc, ?_⟩
  intro j el hj
  have hlt : j < doc.length := (List.getElem?_eq_some.1 hj).1
  constructor
  · intro hnot
    have hm : ¬ selector.matchesAt doc j = true :=
      fun hm => hnot ((mem_querySelectorAll selector doc j).2 ⟨hlt, hm⟩)
    rw [apply_getElem?, if_neg hm, hj]
  · intro hin
    have hm := ((mem_querySelectorAll selector doc j).1 hin).2
    rw [apply_getElem?, if_pos hm, hj]
    rfl

/-- C7 on the page of the nested scenario, bound with the class selector: the link at
index 0 is not matched, the button at index 1 is. -/
theorem C7_nested_page :
    nestedPage[0]? = some confirmLink ∧
    0 ∉ querySelectorAll (Selector.cls "delete-user-btn") nestedPage ∧
    (applyDeleteConfirmation (Selector.cls "delete-user-btn") "DELETE_USER"
      nestedPage).1[0]? = some confirmLink :=
  ⟨by decide, by decide,
    ((C7_only_bindings_of_matched_elements_change nestedPage
      (Selector.cls "delete-user-btn") "DELETE_USER").2.2 0 confirmLink (by decide)).1
      (by decide)⟩

/-- C8, as stated, fails: on the nested page after the routine, a click on the button whose
every prompt is declined still runs the listener registered after the first one on the
button (position 1) and the listener of the enclosing link (element 0). -/
theorem C8_decline_does_not_halt_other_listeners :
    alwaysDecline 0 = false ∧
    (click inertMarkup alwaysDecline (onDOMContentLoaded nestedMarkedPage) 1).ran =
      [(1, 0), (1, 1), (0, 0)] ∧
    (1, 1) ∈ (click inertMarkup alwaysDecline (onDOMContentLoaded nestedMarkedPage) 1).ran ∧
    (0, 0) ∈ (click inertMarkup alwaysDecline (onDOMContentLoaded nestedMarkedPage) 1).ran ∧
    (click inertMarkup alwaysDecline (onDOMContentLoaded nestedMarkedPage) 1).prompts =
      ["Sigur doriți să ștergeți acest utilizator?",
       "Sigur doriți să ștergeți acest document?",
       "Sigur doriți să ștergeți acest document?"] := by
  refine ⟨by decide, by decide, by decide, by decide, by decide⟩

/-- C8, amended: when the user declines, the installed handler returns `false` and sets
`defaultPrevented` on the event, and that is all: both propagation flags stay as they
were. So a listener registered right after it on the same element runs next, the listeners
that run for a click, on the element and on its ancestors, are the same whatever the user
answers, and on a propagation path whose handlers are all bound listeners every listener
of the target and of every ancestor runs. -/
theorem C8_decline_only_prevents_default
    (msg : JSValue) (interp : String → Effect) (answers : Nat → Bool) (c : Click)
    (doc : Document) (i : Nat) :
    (clickListener msg answers c).2.event.propagationStopped = c.event.propagationStopped ∧
    (clickListener msg answers c).2.event.immediatePropagationStopped =
      c.event.immediatePropagationStopped ∧
    (answers c.prompts.length = false →
      (clickListener msg answers c).1 = false ∧
      (clickListener msg answers c).2.event = { c.event with defaultPrevented := true }) ∧
    (∀ (idx pos : Nat) (l : Listener) (rest : List Listener),
      c.event.immediatePropagationStopped = false →
      (idx, pos + 1) ∈
        (invokeListeners answers idx (Listener.confirmation msg :: l :: rest) pos c).ran) ∧
    (∀ answers2 : Nat → Bool,
      (click interp answers doc i).ran = (click interp answers2 doc i).ran) ∧
    (onlyConfirmationsOn doc (eventPath doc i) = true →
      (click interp answers doc i).ran = pathListeners doc (eventPath doc i)) := by
  obtain ⟨h1, h2, _, _⟩ := clickListener_flags msg answers c
  refine ⟨h1, h2, ?_, ?_, ?_, ?_⟩
  · intro hd
    obtain ⟨d1, d2, _⟩ := clickListener_declined msg answers c hd
    exact ⟨d1, d2⟩
  · intro idx pos l rest hc
    exact next_listener_runs answers idx pos msg l rest c hc
  · intro answers2
    exact click_ran_independent interp answers answers2 doc i
  · intro h
    exact (click_confirmations interp answers doc i h).2.1

/-- C8, amended, for a user who declines: on the page where another script added its own
listeners after the binding, the listener after the bound one and that of the ancestor run
as they do for a user who confirms; on the nested page after the routine every listener
of the path runs. -/
theorem C8_declined_click_runs_all_listeners :
    (alwaysDecline Click.fresh.prompts.length = false ∧
      Click.fresh.event.immediatePropagationStopped = false ∧
      onlyConfirmationsOn (onDOMContentLoaded nestedMarkedPage)
        (eventPath (onDOMContentLoaded nestedMarkedPage) 1) = true) ∧
    (clickListener (message "DELETE_USER") alwaysDecline Click.fresh).1 = false ∧
    (clickListener (message "DELETE_USER") alwaysDecline Click.fresh).2.event.defaultPrevented
      = true ∧
    (1, 1) ∈ (invokeListeners alwaysDecline 1
      [Listener.confirmation (message "DELETE_USER"),
       Listener.foreign "track"
         { preventDefault := false, stopPropagation := false,
           stopImmediatePropagation := false }] 0 Click.fresh).ran ∧
    (click inertMarkup alwaysDecline trackedButtonPage 1).ran =
      (click inertMarkup alwaysConfirm trackedButtonPage 1).ran ∧
    (click inertMarkup alwaysDecline trackedButtonPage 1).ran = [(1, 0), (1, 1), (0, 0)] ∧
    (click inertMarkup alwaysDecline (onDOMContentLoaded nestedMarkedPage) 1).ran =
      pathListeners (onDOMContentLoaded nestedMarkedPage)
        (eventPath (onDOMContentLoaded nestedMarkedPage) 1) := by
  obtain ⟨_, _, h3, h4, h5, _⟩ :=
    C8_decline_only_prevents_default (message "DELETE_USER") inertMarkup alwaysDecline
      Click.fresh trackedButtonPage 1
  obtain ⟨_, _, _, _, _, k6⟩ :=
    C8_decline_only_prevents_default (message "DELETE_USER") inertMarkup alwaysDecline
      Click.fresh (onDOMContentLoaded nestedMarkedPage) 1
  refine ⟨⟨by decide, by decide, by decide⟩, (h3 (by decide)).1, ?_, ?_, h5 alwaysConfirm,
    by decide, k6 (by decide)⟩
  · rw [(h3 (by decide)).2]
  · exact h4 1 0 _ [] (by decide)

/-- C9, as stated, fails: with the selector `[onclick]` the first call removes the very
attribute the selector looks for, so the second call matches nothing and the button is left
with one bound listener, not two. -/
theorem C9_onclick_selector_binds_only_once :
    0 ∈ querySelectorAll (Selector.attr "onclick") [userButton] ∧
    querySelectorAll (Selector.attr "onclick")
      (applyDeleteConfirmation (Selector.attr "onclick") "DELETE_USER" [userButton]).1 = [] ∧
    ((applyDeleteConfirmation (Selector.attr "onclick") "DELETE_USER"
      (applyDeleteConfirmation (Selector.attr "onclick") "DELETE_USER"
        [userButton]).1).1[0]?).map Element.listeners =
      some [Listener.confirmation (message "DELETE_USER")] := by
  refine ⟨by decide, by decide, by decide⟩

/-- C9, amended: the first call removes the `onclick` attribute of a matched element and
adds one listener; the attribute stays absent after the second call, which adds a second
listener to the element exactly when the selector still matches it in the document the
first call left, and that is the case for every selector that does not look at the
`onclick` attribute. -/
theorem C9_second_call_binds_again_what_still_matches
    (doc : Document) (selector : Selector) (messageKey : String) (i : Nat) (el : Element)
    (hel : doc[i]? = some el) (hi : i ∈ querySelectorAll selector doc) :
    ∃ el1 el2,
      (applyDeleteConfirmation selector messageKey doc).1[i]? = some el1 ∧
      (applyDeleteConfirmation selector messageKey
        (applyDeleteConfirmation selector messageKey doc).1).1[i]? = some el2 ∧
      hasAttribute "onclick" el1 = false ∧
      hasAttribute "onclick" el2 = false ∧
      el1.listeners = el.listeners ++ [Listener.confirmation (message messageKey)] ∧
      (i ∈ querySelectorAll selector (applyDeleteConfirmation selector messageKey doc).1 →
        el2.listeners = el.listeners ++
          [Listener.confirmation (message messageKey),
           Listener.confirmation (message messageKey)]) ∧
      (i ∉ querySelectorAll selector (applyDeleteConfirmation selector messageKey doc).1 →
        el2.listeners = el.listeners ++ [Listener.confirmation (message messageKey)]) ∧
      (selector.testsAttribute "onclick" = false →
        querySelectorAll selector (applyDeleteConfirmation selector messageKey doc).1 =
          querySelectorAll selector doc) := by
  obtain ⟨hlt, hm⟩ := (mem_querySelectorAll selector doc i).1 hi
  have h1 : (applyDeleteConfirmation selector messageKey doc).1[i]? =
      some (bindButton (message messageKey) el) := by
    rw [apply_getElem?, if_pos hm, hel]
    rfl
  have hlt1 : i < (applyDeleteConfirmation selector messageKey doc).1.length := by
    rw [apply_length]; exact hlt
  have hstable : selector.testsAttribute "onclick" = false →
      querySelectorAll selector (applyDeleteConfirmation selector messageKey doc).1 =
        querySelectorAll selector doc :=
    fun hs => querySelectorAll_sameMarkup (sameMarkup_apply selector messageKey doc) selector hs
  by_cases hm1 : selector.matchesAt (applyDeleteConfirmation selector messageKey doc).1 i = true
  · have hin : i ∈ querySelectorAll selector (applyDeleteConfirmation selector messageKey doc).1 :=
      (mem_querySelectorAll _ _ _).2 ⟨hlt1, hm1⟩
    refine ⟨bindButton (message messageKey) el,
      bindButton (message messageKey) (bindButton (message messageKey) el), h1, ?_,
      hasAttribute_bindButton_onclick _ _, hasAttribute_bindButton_onclick _ _, rfl, ?_, ?_,
      hstable⟩
    · rw [apply_getElem?, if_pos hm1, h1]
      rfl
    · intro _
      simp [bindButton, addEventListener, removeAttribute]
    · intro hnot
      exact absurd hin hnot
  · have hnin : i ∉ querySelectorAll selector
        (applyDeleteConfirmation selector messageKey doc).1 :=
      fun h => hm1 ((mem_querySelectorAll _ _ _).1 h).2
    refine ⟨bindButton (message messageKey) el, bindButton (message messageKey) el, h1, ?_,
      hasAttribute_bindButton_onclick _ _, hasAttribute_bindButton_onclick _ _, rfl, ?_, ?_,
      hstable⟩
    · rw [apply_getElem?, if_neg hm1, h1]
    · intro hin
      exact absurd hin hnin
    · intro _
      rfl

/-- C9, amended, on the button of the first scenario bound twice through its class. -/
theorem C9_user_button_bound_twice :
    ([userButton][0]? = some userButton ∧
      0 ∈ querySelectorAll (Selector.cls "delete-user-btn") [userButton] ∧
      (Selector.cls "delete-user-btn").testsAttribute "onclick" = false) ∧
    querySelectorAll (Selector.cls "delete-user-btn")
        (applyDeleteConfirmation (Selector.cls "delete-user-btn") "DELETE_USER"
          [userButton]).1 =
      querySelectorAll (Selector.cls "delete-user-btn") [userButton] ∧
    ((applyDeleteConfirmation (Selector.cls "delete-user-btn") "DELETE_USER"
      (applyDeleteConfirmation (Selector.cls "delete-user-btn") "DELETE_USER"
        [userButton]).1).1[0]?).map Element.listeners =
      some [Listener.confirmation (message "DELETE_USER"),
            Listener.confirmation (message "DELETE_USER")] := by
  obtain ⟨el1, el2, _, h2, _, _, _, h6, _, h8⟩ :=
    C9_second_call_binds_again_what_still_matches [userButton]
      (Selector.cls "delete-user-btn") "DELETE_USER" 0 userButton (by decide) (by decide)
  refine ⟨⟨by decide, by decide, by decide⟩, h8 (by decide), ?_⟩
  rw [h2, Option.map_some', h6 (by decide)]
  rfl

/-- C10, as stated, fails: on the nested page the button matches one selector of the
routine, yet a click on it displays two prompts, its own and that of the enclosing link
reached by bubbling; and the default action is prevented for a user who confirms the one
prompt of the button and declines the other. -/
theorem C10_bound_ancestor_adds_a_prompt :
    (boundMessages nestedPage 1).length = 1 ∧
    (click inertMarkup alwaysConfirm (onDOMContentLoaded nestedPage) 1).prompts =
      ["Sigur doriți să ștergeți acest utilizator?",
       "Sigur doriți să ștergeți acest document?"] ∧
    confirmFirstOnly 0 = true ∧
    (click inertMarkup confirmFirstOnly (onDOMContentLoaded nestedPage) 1).event.defaultPrevented
      = true := by
  refine ⟨by decide, by decide, by decide, by decide⟩

/-- C10, amended: the routine adds to an element one listener per selector of the routine
it matches, in binding order, after the listeners it had. On a propagation path whose
handlers are all bound listeners, a click displays the prompts of the target and then those
of its ancestors, every one whatever the earlier answers, and the default action proceeds
exactly when the user confirms them all. For an element that matches `n >= 1` selectors,
carried no listener before and has no ancestor with a click handler, these are its `n`
prompts in binding order. -/
theorem C10_click_prompts_once_per_binding_on_the_path
    (doc : Document) (i : Nat) (el : Element) (hel : doc[i]? = some el)
    (interp : String → Effect) (answers : Nat → Bool) :
    ∃ el1, (onDOMContentLoaded doc)[i]? = some el1 ∧
      el1.listeners = el.listeners ++ (boundMessages doc i).map Listener.confirmation ∧
      (onlyConfirmationsOn (onDOMContentLoaded doc) (eventPath (onDOMContentLoaded doc) i)
          = true →
        (click interp answers (onDOMContentLoaded doc) i).prompts =
          promptsOf el1.listeners ++
            pathPrompts (onDOMContentLoaded doc) (ancestors (onDOMContentLoaded doc) i) ∧
        ((click interp answers (onDOMContentLoaded doc) i).event.defaultPrevented = false ↔
          ∀ k, k < (click interp answers (onDOMContentLoaded doc) i).prompts.length →
            answers k = true)) ∧
      (el.listeners = [] → 1 ≤ (boundMessages doc i).length →
        noHandlersOn (onDOMContentLoaded doc) (ancestors (onDOMContentLoaded doc) i) = true →
        (click interp answers (onDOMContentLoaded doc) i).prompts =
          (boundMessages doc i).map toDisplayString ∧
        ((click interp answers (onDOMContentLoaded doc) i).event.defaultPrevented = false ↔
          ∀ k, k < (boundMessages doc i).length → answers k = true)) := by
  have h1 : (onDOMContentLoaded doc)[i]? = some (bindMany (boundMessages doc i) el) := by
    rw [onDOMContentLoaded_getElem?, hel]
    rfl
  refine ⟨bindMany (boundMessages doc i) el, h1, bindMany_listeners _ _, ?_, ?_⟩
  · intro hpath
    obtain ⟨g1, _, g3⟩ := click_confirmations interp answers (onDOMContentLoaded doc) i hpath
    have hp : pathPrompts (onDOMContentLoaded doc) (eventPath (onDOMContentLoaded doc) i) =
        promptsOf (bindMany (boundMessages doc i) el).listeners ++
          pathPrompts (onDOMContentLoaded doc) (ancestors (onDOMContentLoaded doc) i) := by
      simp only [eventPath, pathPrompts, h1]
    rw [g1, ← hp]
    exact ⟨rfl, g3⟩
  · intro hnone hn hanc
    have hne : boundMessages doc i ≠ [] := by
      intro h0
      rw [h0] at hn
      exact absurd hn (by decide)
    rw [click_eq_handleAt interp answers _ i _ h1 hanc]
    exact handleAt_bound_only interp answers i el _ hnone hne

/-- C10, amended, on `<button class="delete-user-btn" data-confirm>`, which matches two
selectors of the routine. -/
theorem C10_marked_user_button :
    ([markedUserButton][0]? = some markedUserButton ∧
      markedUserButton.listeners = [] ∧
      1 ≤ (boundMessages [markedUserButton] 0).length ∧
      noHandlersOn (onDOMContentLoaded [markedUserButton])
        (ancestors (onDOMContentLoaded [markedUserButton]) 0) = true) ∧
    (boundMessages [markedUserButton] 0).map toDisplayString =
      ["Sigur doriți să ștergeți acest utilizator?",
       "Sigur doriți să ștergeți acest document?"] ∧
    (click inertMarkup alwaysConfirm (onDOMContentLoaded [markedUserButton]) 0).prompts =
      (boundMessages [markedUserButton] 0).map toDisplayString := by
  obtain ⟨el1, _, _, _, h4⟩ :=
    C10_click_prompts_once_per_binding_on_the_path [markedUserButton] 0 markedUserButton
      (by decide) inertMarkup alwaysConfirm
  exact ⟨⟨by decide, by decide, by decide, by decide⟩, by decide,
    (h4 (by decide) (by decide) (by decide)).1⟩

end Confirmation
